import Mathlib

/- Verification development for the rxremote per-connection subscription
   multiplexer, a shallow embedding of src/server/onWebSocketConnection.js.

   The runtime collaborators are represented by pure data:
   the socket by a Conn record (connection id, remote address, readyState);
   the stream catalog (the observables argument) by a function from property
   keys to an optional factory, following the collaborator contract
   lookup(name) -> factory or undefined; the log and event subjects and the
   outbound socket writes by an explicit list of Effect values returned by
   each operation together with the successor state. -/

namespace RxRemote

/-- JSON values as produced by JSON.parse on an inbound frame.  Numbers are
modelled as integers. -/
inductive JSON where
  | null
  | bool (b : Bool)
  | num (n : Int)
  | str (s : String)
  | arr (elems : List JSON)
  | obj (fields : List (String × JSON))

mutual

/-- JavaScript String() coercion of a parsed JSON value, as used in the source
for property keys (observables[message.name], the in operator) and for string
concatenation in log templates. -/
def jsToString : JSON → String
  | .null => "null"
  | .bool true => "true"
  | .bool false => "false"
  | .num n => toString n
  | .str s => s
  | .arr xs => jsArrString xs
  | .obj _ => "[object Object]"

/-- JavaScript Array.prototype.join with a comma, where a null element renders
as the empty string. -/
def jsArrString : List JSON → String
  | [] => ""
  | [.null] => ""
  | [x] => jsToString x
  | .null :: xs => "," ++ jsArrString xs
  | x :: xs => jsToString x ++ "," ++ jsArrString xs

end

/-- Property access message[key] on a parsed value; none models the JavaScript
undefined result (missing field, or a non-object receiver). -/
def getField : JSON → String → Option JSON
  | .obj fields, k => (fields.find? (fun kv => kv.1 == k)).map (fun kv => kv.2)
  | _, _ => none

/-- JavaScript String() coercion of a possibly-undefined value. -/
def jsToStringU : Option JSON → String
  | none => "undefined"
  | some v => jsToString v

/-- Terminal notification of an event source. -/
inductive Terminal where
  | complete
  | error (e : JSON)

/-- Outbound envelopes written to the socket by the multiplexer. -/
inductive Envelope where
  | events (subscriptionId : Int) (batch : List JSON)
  | error (subscriptionId : Int) (err : JSON)
  | complete (subscriptionId : Int)

/-- Metadata attached to every ingested domain event by insertEvent. -/
structure Meta where
  connectionId : String
  sessionId : Option String
  ipAddress : String

/-- Observable side effects of the multiplexer on its collaborators: a line
pushed to the log subject, a console.error line, an envelope written to the
open socket, a domain event pushed to the event subject, an invocation of a
catalog factory (recorded with its arguments), a cancellation of an Rx
subscription handle, and a close of the transport (which the source never
performs; it is included so that claims about the connection staying open can
be stated). -/
inductive Effect where
  | log (line : String)
  | consoleError (line : String)
  | sendEnv (env : Envelope)
  | emitEvent (eventType : String) (meta : Meta)
  | factoryCall (name : String) (offset : Int) (sessionId : Option String)
  | cancel (key : String)
  | closeConn

def Effect.isLog : Effect → Bool
  | .log _ => true
  | _ => false

def Effect.isClose : Effect → Bool
  | .closeConn => true
  | _ => false

/-- One entry of the subscription table: the numeric subscription id captured
by createObserver, the raw name value stored on the Rx subscription object for
diagnostics, and the remaining deliveries of the batched stream (pending
batches, then a pending terminal notification). -/
structure Subscription where
  sid : Int
  name : Option JSON
  pending : List (List JSON)
  pendingTerminal : Option Terminal

/-- Mutable per-connection state: the session id (null until a valid hello)
and the subscriptions object, modelled as an association list keyed by the
JavaScript property-key strings. -/
structure ConnState where
  sessionId : Option String
  subscriptions : List (String × Subscription)

/-- Immutable connection data: the connection id given by the caller, the
remote address computed from the upgrade request, and the socket readyState
consulted by send (1 means OPEN). -/
structure Conn where
  connectionId : String
  remoteAddr : String
  readyState : Nat

/-- Metadata snapshot built by insertEvent from the current session id. -/
def mkMeta (conn : Conn) (sessionId : Option String) : Meta :=
  { connectionId := conn.connectionId, sessionId := sessionId, ipAddress := conn.remoteAddr }

/-- The local log helper: prefixes the remote address and pushes to the log
subject. -/
def logE (conn : Conn) (message : String) : Effect :=
  .log ("[" ++ conn.remoteAddr ++ "] " ++ message)

/-- The local send helper: writes an envelope when the socket readyState is
OPEN and otherwise logs the dropped write. -/
def send (conn : Conn) (object : Envelope) : Effect :=
  if conn.readyState = 1 then
    .sendEnv object
  else
    logE conn ("Tried to send to WebSocket in readyState: " ++ toString conn.readyState)

/-- Lookup in the subscriptions object. -/
def lookupSub (key : String) : List (String × Subscription) → Option Subscription
  | [] => none
  | kv :: rest => if kv.1 = key then some kv.2 else lookupSub key rest

/-- The JavaScript in operator on the subscriptions object. -/
def hasKey (key : String) (subs : List (String × Subscription)) : Bool :=
  (lookupSub key subs).isSome

/-- Property assignment subscriptions[key] = sub. -/
def setKey (key : String) (sub : Subscription) : List (String × Subscription) → List (String × Subscription)
  | [] => [(key, sub)]
  | kv :: rest => if kv.1 = key then (key, sub) :: rest else kv :: setKey key sub rest

/-- Property deletion delete subscriptions[key]. -/
def delKey (key : String) : List (String × Subscription) → List (String × Subscription)
  | [] => []
  | kv :: rest => if kv.1 = key then rest else kv :: delKey key rest

/-- Result of invoking a catalog factory: either a value with no subscribe
function (including falsy values), recorded with its display string for the
console.error template, or a streamable source, recorded with its optional
array field (some when Array.isArray(observable.array) holds), its item
sequence and its terminal notification. -/
inductive FactoryResult where
  | notStreamable (shown : String)
  | streamable (arrayField : Option (List JSON)) (items : List JSON) (terminal : Terminal)

/-- A stream factory: invoked with the requested offset and the current
session id (the raw socket handle, also passed in the source, carries no
information relevant to this model). -/
abbrev Factory := Int → Option String → FactoryResult

/-- The stream catalog: the observables argument, per the collaborator
contract lookup(name) -> factory or undefined. -/
abbrev Catalog := String → Option Factory

/-- Modelled from the spec: rewrapBatches (file src/batches.js is imported by
the source but is not part of this repository snapshot).  Section 4.3 batching
mode: the items of the raw source are grouped, in order, into non-empty
batches; the grouping choice is arbitrary and is represented by a strategy
list whose entry n produces a batch of n + 1 items, remaining items being
delivered as singleton batches (every grouping into non-empty batches arises
from some strategy). -/
def chunkBy : List Nat → List α → List (List α)
  | [], items => items.map (fun x => [x])
  | _ :: _, [] => []
  | n :: ns, x :: xs => (x :: xs.take n) :: chunkBy ns (xs.drop n)

theorem chunkBy_flatten (strategy : List Nat) (items : List α) :
    (chunkBy strategy items).flatten = items := by
  induction strategy generalizing items with
  | nil =>
    induction items with
    | nil => rfl
    | cons x xs ih => simp [chunkBy] at ih ⊢; exact ih
  | cons n ns ih =>
    cases items with
    | nil => rfl
    | cons x xs => simp [chunkBy, ih]

theorem chunkBy_ne_nil (strategy : List Nat) (items : List α) :
    ∀ b ∈ chunkBy strategy items, b ≠ [] := by
  induction strategy generalizing items with
  | nil =>
    intro b hb
    simp only [chunkBy, List.mem_map] at hb
    rcases hb with ⟨x, _, hx⟩
    rw [show b = [x] from hx.symm]
    exact List.cons_ne_nil _ _
  | cons n ns ih =>
    intro b hb
    cases items with
    | nil => simp [chunkBy] at hb
    | cons x xs =>
      simp only [chunkBy, List.mem_cons] at hb
      rcases hb with h | h
      · simp [h]
      · exact ih (xs.drop n) b h

/-- The error object of the 404 reply in the name-not-found branch (note the
numeric code). -/
def err404 : JSON := .obj [("code", .num 404), ("message", .str "Not found")]

/-- The error object of the 500 reply in the non-stream-factory-result branch
(note that the source writes the code as the string literal quote-500-quote,
unlike the numeric 404). -/
def err500 : JSON := .obj [("code", .str "500"), ("message", .str "Internal Server Error")]

/-- The hello case of the message handler. -/
def handleHello (conn : Conn) (m : JSON) (s : ConnState) : List Effect × ConnState :=
  match getField m "sessionId" with
  | some (.str sid) =>
    ([.emitEvent "connection-open" (mkMeta conn (some sid)),
      logE conn ("open session " ++ sid)],
     { s with sessionId := some sid })
  | _ => ([logE conn "expected sessionId"], s)

/-- The subscribe case of the message handler.  Field checks, the duplicate-id
check, the catalog lookup on the String() coercion of message.name, the
factory invocation, the array-shaped special case (Rx.Observable.of of the
array, which completes after the single batch) and the batching-mode wrap via
rewrapBatches, and finally the store into the subscriptions object. -/
def handleSubscribe (conn : Conn) (catalog : Catalog) (strategy : List Nat)
    (m : JSON) (s : ConnState) : List Effect × ConnState :=
  match getField m "offset" with
  | some (.num offset) =>
    match getField m "subscriptionId" with
    | some (.num sid) =>
      if hasKey (toString sid) s.subscriptions then
        ([logE conn ("subscriptionId sent twice: " ++ toString sid)], s)
      else
        match catalog (jsToStringU (getField m "name")) with
        | some factory =>
          match factory offset s.sessionId with
          | .notStreamable shown =>
            ([logE conn ("subscribing to " ++ jsToStringU (getField m "name")),
              .factoryCall (jsToStringU (getField m "name")) offset s.sessionId,
              .consoleError ("Expected Rx.Observable instance for key " ++
                jsToStringU (getField m "name") ++ ", got: " ++ shown),
              send conn (.error sid err500)], s)
          | .streamable arrayField items terminal =>
            let batched : List (List JSON) × Terminal :=
              match arrayField with
              | some a => ([a], .complete)
              | none => (chunkBy strategy items, terminal)
            let sub : Subscription :=
              { sid := sid, name := getField m "name",
                pending := batched.1, pendingTerminal := some batched.2 }
            ([logE conn ("subscribing to " ++ jsToStringU (getField m "name")),
              .factoryCall (jsToStringU (getField m "name")) offset s.sessionId],
             { s with subscriptions := setKey (toString sid) sub s.subscriptions })
        | none =>
          ([logE conn ("subscribing to " ++ jsToStringU (getField m "name")),
            send conn (.error sid err404)], s)
    | _ => ([logE conn "expected subscriptionId string"], s)
  | _ => ([logE conn "expected offset number"], s)

/-- The unsubscribe case of the message handler.  Note that the source checks
membership with the in operator (which String()-coerces the raw field value)
before checking that the field is a number. -/
def handleUnsubscribe (conn : Conn) (m : JSON) (s : ConnState) : List Effect × ConnState :=
  match lookupSub (jsToStringU (getField m "subscriptionId")) s.subscriptions with
  | none =>
    ([logE conn ("subscriptionId not found: " ++ jsToStringU (getField m "subscriptionId"))], s)
  | some sub =>
    match getField m "subscriptionId" with
    | some (.num _) =>
      ([logE conn ("unsubscribing from " ++ jsToStringU sub.name),
        .cancel (jsToStringU (getField m "subscriptionId"))],
       { s with subscriptions := delKey (jsToStringU (getField m "subscriptionId")) s.subscriptions })
    | _ => ([logE conn "expected subscriptionId number"], s)

/-- The socket message listener.  The argument is the result of parseJSON:
none when JSON.parse threw (parseJSON then returned null after a
console.error, which happens upstream of this function), and some JSON.null
when the frame was the literal null text; both satisfy the loose null
comparison and are logged as a parse error. -/
def handleMessage (conn : Conn) (catalog : Catalog) (strategy : List Nat)
    (data : Option JSON) (s : ConnState) : List Effect × ConnState :=
  match data with
  | none => ([logE conn "Error parsing JSON"], s)
  | some .null => ([logE conn "Error parsing JSON"], s)
  | some m =>
    match getField m "type" with
    | some (.str t) =>
      if t = "hello" then handleHello conn m s
      else if t = "subscribe" then handleSubscribe conn catalog strategy m s
      else if t = "unsubscribe" then handleUnsubscribe conn m s
      else ([logE conn ("Received unknown message type " ++ t)], s)
    | _ => ([logE conn "Received message without a type"], s)

/-- One asynchronous delivery tick of the observer created by createObserver
for one subscription: the next pending batch becomes an events envelope; once
the batches are exhausted, the terminal notification becomes a complete
envelope, or a log line plus an error envelope. -/
def deliverSub (conn : Conn) (sub : Subscription) : List Effect × Subscription :=
  match sub.pending with
  | b :: rest =>
    ([send conn (.events sub.sid b)], { sub with pending := rest })
  | [] =>
    match sub.pendingTerminal with
    | some .complete =>
      ([send conn (.complete sub.sid)], { sub with pendingTerminal := none })
    | some (.error e) =>
      ([logE conn (jsToString e), send conn (.error sub.sid e)],
       { sub with pendingTerminal := none })
    | none => ([], sub)

/-- Delivery tick addressed by table key.  A key that is absent from the table
delivers nothing: an Rx subscription handle that was cancelled (by unsubscribe
or by cleanup) pushes no further notification to its observer, per the Rx
cancellation contract. -/
def deliverStep (conn : Conn) (key : String) (s : ConnState) : List Effect × ConnState :=
  match lookupSub key s.subscriptions with
  | none => ([], s)
  | some sub =>
    let r := deliverSub conn sub
    (r.1, { s with subscriptions := setKey key r.2 s.subscriptions })

/-- The close listener: log, unsubscribe every entry of the subscriptions
object, replace the object with an empty one, and ingest a connection-closed
domain event. -/
def cleanup (conn : Conn) (s : ConnState) : List Effect × ConnState :=
  (logE conn "Closing WebSocket" ::
     (s.subscriptions.map (fun kv => Effect.cancel kv.1) ++
      [Effect.emitEvent "connection-closed" (mkMeta conn s.sessionId)]),
   { s with subscriptions := [] })

/-- One step of the connection lifetime: an inbound frame, an asynchronous
delivery tick for one table key, or the socket close event. -/
inductive Step where
  | msg (data : Option JSON)
  | deliver (key : String)
  | close

def applyStep (conn : Conn) (catalog : Catalog) (strategy : List Nat)
    (st : Step) (s : ConnState) : List Effect × ConnState :=
  match st with
  | .msg data => handleMessage conn catalog strategy data s
  | .deliver key => deliverStep conn key s
  | .close => cleanup conn s

def runSteps (conn : Conn) (catalog : Catalog) (strategy : List Nat) :
    List Step → ConnState → List Effect × ConnState
  | [], s => ([], s)
  | st :: rest, s =>
    let r1 := applyStep conn catalog strategy st s
    let r2 := runSteps conn catalog strategy rest r1.2
    (r1.1 ++ r2.1, r2.2)

/-- The state of a connection as it is first opened: no session, no
subscriptions. -/
def initState : ConnState := { sessionId := none, subscriptions := [] }

/-- Envelopes actually written to the socket among a list of effects. -/
def sentEnvelopes (effects : List Effect) : List Envelope :=
  effects.filterMap (fun e => match e with | .sendEnv env => some env | _ => none)

/-- Domain events pushed to the event subject among a list of effects. -/
def domainEvents (effects : List Effect) : List (String × Meta) :=
  effects.filterMap (fun e => match e with | .emitEvent t meta => some (t, meta) | _ => none)

/-- A canonically shaped subscribe frame. -/
def mkSubscribe (sid : Int) (name : String) (offset : Int) : JSON :=
  .obj [("type", .str "subscribe"), ("subscriptionId", .num sid),
        ("name", .str name), ("offset", .num offset)]

/-- A parsed frame that the handler accepts as a hello: string type field
equal to hello and a string sessionId field. -/
def validHelloMsg : Option JSON → Bool
  | some m =>
    match getField m "type", getField m "sessionId" with
    | some (.str t), some (.str _) => t == "hello"
    | _, _ => false
  | none => false

/-- The subscribe part of the protocol-error taxonomy as the claim states it:
non-numeric offset, non-numeric subscriptionId, a subscriptionId already in
the table, or a missing or non-string name field. -/
def subscribeProtoErrSpec (s : ConnState) (m : JSON) : Bool :=
  match getField m "offset" with
  | some (.num _) =>
    match getField m "subscriptionId" with
    | some (.num sid) =>
      hasKey (toString sid) s.subscriptions ||
        (match getField m "name" with
         | some (.str _) => false
         | _ => true)
    | _ => true
  | _ => true

/-- The subscribe part of the protocol-error taxonomy as the source actually
treats it: non-numeric offset, non-numeric subscriptionId, or a duplicate
subscriptionId.  The name field is never validated by the source. -/
def subscribeProtoErr (s : ConnState) (m : JSON) : Bool :=
  match getField m "offset" with
  | some (.num _) =>
    match getField m "subscriptionId" with
    | some (.num sid) => hasKey (toString sid) s.subscriptions
    | _ => true
  | _ => true

/-- A protocol error in the sense of the claim being checked: unparseable
JSON, a missing or non-string type field, a schema-invalid field for the
messages type (including a missing or non-string name on a subscribe), an
unknown type, a duplicate subscriptionId on subscribe, or an unsubscribe whose
subscriptionId is not in the table. -/
def protocolErrorSpec (s : ConnState) (data : Option JSON) : Bool :=
  match data with
  | none => true
  | some m =>
    match getField m "type" with
    | some (.str t) =>
      if t = "hello" then
        match getField m "sessionId" with
        | some (.str _) => false
        | _ => true
      else if t = "subscribe" then subscribeProtoErrSpec s m
      else if t = "unsubscribe" then
        match lookupSub (jsToStringU (getField m "subscriptionId")) s.subscriptions with
        | none => true
        | some _ =>
          match getField m "subscriptionId" with
          | some (.num _) => false
          | _ => true
      else true
    | _ => true

/-- A protocol error as the source actually treats it: exactly the claim
taxonomy except that the subscribe name field is not part of the schema check
(the source passes the String() coercion of the raw name to the catalog
lookup). -/
def protocolError (s : ConnState) (data : Option JSON) : Bool :=
  match data with
  | none => true
  | some m =>
    match getField m "type" with
    | some (.str t) =>
      if t = "hello" then
        match getField m "sessionId" with
        | some (.str _) => false
        | _ => true
      else if t = "subscribe" then subscribeProtoErr s m
      else if t = "unsubscribe" then
        match lookupSub (jsToStringU (getField m "subscriptionId")) s.subscriptions with
        | none => true
        | some _ =>
          match getField m "subscriptionId" with
          | some (.num _) => false
          | _ => true
      else true
    | _ => true

/-- Factory invocations among a list of effects, with their arguments. -/
def factoryCalls (effects : List Effect) : List (String × Int × Option String) :=
  effects.filterMap (fun e => match e with | .factoryCall n o sid => some (n, o, sid) | _ => none)

/-- A concrete open connection used by the concrete evaluations below. -/
def conn0 : Conn := { connectionId := "conn-1", remoteAddr := "127.0.0.1", readyState := 1 }

/-- The empty stream catalog. -/
def catEmpty : Catalog := fun _ => none

/-- A catalog with one well-behaved stream: the name feed resolves to a
factory returning a source with no items that completes at once. -/
def catFeed : Catalog :=
  fun k => if k = "feed" then some (fun _ _ => .streamable none [] .complete) else none

/-- A catalog violating the factory contract on the name bad: the factory
returns the number 42, which has no subscribe function. -/
def catBad : Catalog :=
  fun k => if k = "bad" then some (fun _ _ => .notStreamable "42") else none

/-- A catalog with one array-shaped stream: the name tbl resolves to a factory
returning an ArrayObservable whose array field holds two items. -/
def catArray : Catalog :=
  fun k =>
    if k = "tbl" then
      some (fun _ _ => .streamable (some [.num 10, .num 20]) [.num 10, .num 20] .complete)
    else none

/-- A subscribe frame with numeric offset and subscriptionId but no name
field at all. -/
def mNoName : JSON :=
  .obj [("type", .str "subscribe"), ("offset", .num 0), ("subscriptionId", .num 1)]

section Lemmas

@[simp] theorem lookupSub_nil (key : String) : lookupSub key [] = none := rfl

theorem lookupSub_setKey_self (key : String) (sub : Subscription) :
    ∀ l, lookupSub key (setKey key sub l) = some sub := by
  intro l
  induction l with
  | nil => simp [setKey, lookupSub]
  | cons kv rest ih =>
    by_cases h : kv.1 = key
    · simp [setKey, lookupSub, h]
    · simp [setKey, lookupSub, h, ih]

@[simp] theorem sentEnvelopes_nil : sentEnvelopes [] = [] := rfl

@[simp] theorem sentEnvelopes_cons_log (line : String) (effects : List Effect) :
    sentEnvelopes (Effect.log line :: effects) = sentEnvelopes effects := rfl

@[simp] theorem sentEnvelopes_cons_consoleError (line : String) (effects : List Effect) :
    sentEnvelopes (Effect.consoleError line :: effects) = sentEnvelopes effects := rfl

@[simp] theorem sentEnvelopes_cons_send (env : Envelope) (effects : List Effect) :
    sentEnvelopes (Effect.sendEnv env :: effects) = env :: sentEnvelopes effects := rfl

@[simp] theorem sentEnvelopes_cons_emit (t : String) (meta : Meta) (effects : List Effect) :
    sentEnvelopes (Effect.emitEvent t meta :: effects) = sentEnvelopes effects := rfl

@[simp] theorem sentEnvelopes_cons_factoryCall (name : String) (offset : Int)
    (sid : Option String) (effects : List Effect) :
    sentEnvelopes (Effect.factoryCall name offset sid :: effects) = sentEnvelopes effects := rfl

@[simp] theorem sentEnvelopes_cons_cancel (key : String) (effects : List Effect) :
    sentEnvelopes (Effect.cancel key :: effects) = sentEnvelopes effects := rfl

@[simp] theorem domainEvents_nil : domainEvents [] = [] := rfl

@[simp] theorem domainEvents_cons_log (line : String) (effects : List Effect) :
    domainEvents (Effect.log line :: effects) = domainEvents effects := rfl

@[simp] theorem domainEvents_cons_consoleError (line : String) (effects : List Effect) :
    domainEvents (Effect.consoleError line :: effects) = domainEvents effects := rfl

@[simp] theorem domainEvents_cons_emit (t : String) (meta : Meta) (effects : List Effect) :
    domainEvents (Effect.emitEvent t meta :: effects) = (t, meta) :: domainEvents effects := rfl

@[simp] theorem domainEvents_cons_send (env : Envelope) (effects : List Effect) :
    domainEvents (Effect.sendEnv env :: effects) = domainEvents effects := rfl

@[simp] theorem domainEvents_cons_cancel (key : String) (effects : List Effect) :
    domainEvents (Effect.cancel key :: effects) = domainEvents effects := rfl

@[simp] theorem domainEvents_cons_factoryCall (name : String) (offset : Int)
    (sid : Option String) (effects : List Effect) :
    domainEvents (Effect.factoryCall name offset sid :: effects) = domainEvents effects := rfl

theorem domainEvents_map_cancel (l : List (String × Subscription)) :
    domainEvents (l.map (fun kv => Effect.cancel kv.1)) = [] := by
  induction l with
  | nil => rfl
  | cons kv rest ih => simpa using ih

theorem sentEnvelopes_map_cancel (l : List (String × Subscription)) :
    sentEnvelopes (l.map (fun kv => Effect.cancel kv.1)) = [] := by
  induction l with
  | nil => rfl
  | cons kv rest ih => simpa using ih

@[simp] theorem domainEvents_append (l1 l2 : List Effect) :
    domainEvents (l1 ++ l2) = domainEvents l1 ++ domainEvents l2 := by
  simp [domainEvents]

@[simp] theorem sentEnvelopes_append (l1 l2 : List Effect) :
    sentEnvelopes (l1 ++ l2) = sentEnvelopes l1 ++ sentEnvelopes l2 := by
  simp [sentEnvelopes]

@[simp] theorem factoryCalls_nil : factoryCalls [] = [] := rfl

@[simp] theorem factoryCalls_cons_log (line : String) (effects : List Effect) :
    factoryCalls (Effect.log line :: effects) = factoryCalls effects := rfl

@[simp] theorem factoryCalls_cons_consoleError (line : String) (effects : List Effect) :
    factoryCalls (Effect.consoleError line :: effects) = factoryCalls effects := rfl

@[simp] theorem factoryCalls_cons_send (env : Envelope) (effects : List Effect) :
    factoryCalls (Effect.sendEnv env :: effects) = factoryCalls effects := rfl

@[simp] theorem factoryCalls_cons_emit (t : String) (meta : Meta) (effects : List Effect) :
    factoryCalls (Effect.emitEvent t meta :: effects) = factoryCalls effects := rfl

@[simp] theorem factoryCalls_cons_cancel (key : String) (effects : List Effect) :
    factoryCalls (Effect.cancel key :: effects) = factoryCalls effects := rfl

@[simp] theorem factoryCalls_cons_factoryCall (name : String) (offset : Int)
    (sid : Option String) (effects : List Effect) :
    factoryCalls (Effect.factoryCall name offset sid :: effects) =
      (name, offset, sid) :: factoryCalls effects := rfl

@[simp] theorem factoryCalls_append (l1 l2 : List Effect) :
    factoryCalls (l1 ++ l2) = factoryCalls l1 ++ factoryCalls l2 := by
  simp [factoryCalls]

theorem factoryCalls_map_cancel (l : List (String × Subscription)) :
    factoryCalls (l.map (fun kv => Effect.cancel kv.1)) = [] := by
  induction l with
  | nil => rfl
  | cons kv rest ih => simpa using ih

/-- The send helper never produces an effect other than a socket write or a
log line, whatever the readyState. -/
@[simp] theorem factoryCalls_cons_sendFn (conn : Conn) (env : Envelope) (effects : List Effect) :
    factoryCalls (send conn env :: effects) = factoryCalls effects := by
  unfold send logE
  split <;> rfl

@[simp] theorem domainEvents_cons_sendFn (conn : Conn) (env : Envelope) (effects : List Effect) :
    domainEvents (send conn env :: effects) = domainEvents effects := by
  unfold send logE
  split <;> rfl

@[simp] theorem factoryCalls_cons_logE (conn : Conn) (line : String) (effects : List Effect) :
    factoryCalls (logE conn line :: effects) = factoryCalls effects := rfl

@[simp] theorem domainEvents_cons_logE (conn : Conn) (line : String) (effects : List Effect) :
    domainEvents (logE conn line :: effects) = domainEvents effects := rfl

@[simp] theorem sentEnvelopes_cons_logE (conn : Conn) (line : String) (effects : List Effect) :
    sentEnvelopes (logE conn line :: effects) = sentEnvelopes effects := rfl

/-- The hello case leaves the table alone, and on a non-string sessionId it
only logs. -/
theorem handleHello_no_hello (conn : Conn) (m : JSON) (s : ConnState)
    (h : (match getField m "sessionId" with
          | some (.str _) => true
          | _ => false) = false) :
    handleHello conn m s = ([logE conn "expected sessionId"], s) := by
  unfold handleHello
  rcases hs : getField m "sessionId" with _ | j
  · rfl
  · rw [hs] at h
    cases j <;> first | rfl | simp at h

/-- The subscribe case never changes the session id and never ingests a
domain event. -/
theorem handleSubscribe_session (conn : Conn) (catalog : Catalog) (strategy : List Nat)
    (m : JSON) (s : ConnState) :
    (handleSubscribe conn catalog strategy m s).2.sessionId = s.sessionId ∧
    domainEvents (handleSubscribe conn catalog strategy m s).1 = [] := by
  unfold handleSubscribe
  rcases ho : getField m "offset" with _ | j
  · exact ⟨rfl, rfl⟩
  · cases j with
    | num offset =>
      rcases hi : getField m "subscriptionId" with _ | j2
      · exact ⟨rfl, rfl⟩
      · cases j2 with
        | num sid =>
          by_cases hd : hasKey (toString sid) s.subscriptions
          · simp [hd]
          · simp only [Bool.not_eq_true] at hd
            simp only [hd, Bool.false_eq_true, if_false]
            rcases hc : catalog (jsToStringU (getField m "name")) with _ | factory
            · simp
            · rcases hf : factory offset s.sessionId with shown | ⟨arrayField, items, terminal⟩
              · simp [hf]
              · simp [hf]
        | null => exact ⟨rfl, rfl⟩
        | bool b => exact ⟨rfl, rfl⟩
        | str s2 => exact ⟨rfl, rfl⟩
        | arr xs => exact ⟨rfl, rfl⟩
        | obj f2 => exact ⟨rfl, rfl⟩
    | null => exact ⟨rfl, rfl⟩
    | bool b => exact ⟨rfl, rfl⟩
    | str s2 => exact ⟨rfl, rfl⟩
    | arr xs => exact ⟨rfl, rfl⟩
    | obj f2 => exact ⟨rfl, rfl⟩

/-- The unsubscribe case never changes the session id and never ingests a
domain event. -/
theorem handleUnsubscribe_session (conn : Conn) (m : JSON) (s : ConnState) :
    (handleUnsubscribe conn m s).2.sessionId = s.sessionId ∧
    domainEvents (handleUnsubscribe conn m s).1 = [] := by
  unfold handleUnsubscribe
  rcases hu : lookupSub (jsToStringU (getField m "subscriptionId")) s.subscriptions with _ | sub
  · exact ⟨rfl, rfl⟩
  · rcases hi : getField m "subscriptionId" with _ | j
    · exact ⟨rfl, rfl⟩
    · cases j <;> exact ⟨rfl, rfl⟩

/-- Dispatch of the message handler on an object frame with a string type
field. -/
theorem handleMessage_typed (conn : Conn) (catalog : Catalog) (strategy : List Nat)
    (fields : List (String × JSON)) (s : ConnState) (t : String)
    (ht : getField (.obj fields) "type" = some (.str t)) :
    handleMessage conn catalog strategy (some (.obj fields)) s =
      (if t = "hello" then handleHello conn (.obj fields) s
       else if t = "subscribe" then handleSubscribe conn catalog strategy (.obj fields) s
       else if t = "unsubscribe" then handleUnsubscribe conn (.obj fields) s
       else ([logE conn ("Received unknown message type " ++ t)], s)) := by
  simp only [handleMessage, ht]

/-- A message that is not a valid hello leaves the session id unchanged and
ingests no domain event. -/
theorem handleMessage_no_hello (conn : Conn) (catalog : Catalog) (strategy : List Nat)
    (data : Option JSON) (s : ConnState) (h : validHelloMsg data = false) :
    (handleMessage conn catalog strategy data s).2.sessionId = s.sessionId ∧
    domainEvents (handleMessage conn catalog strategy data s).1 = [] := by
  cases data with
  | none => exact ⟨rfl, rfl⟩
  | some m =>
    cases m with
    | null => exact ⟨rfl, rfl⟩
    | bool b => exact ⟨rfl, rfl⟩
    | num n => exact ⟨rfl, rfl⟩
    | str s2 => exact ⟨rfl, rfl⟩
    | arr xs => exact ⟨rfl, rfl⟩
    | obj fields =>
      have h2 : (match getField (JSON.obj fields) "type", getField (JSON.obj fields) "sessionId" with
                 | some (.str t), some (.str _) => t == "hello"
                 | _, _ => false) = false := h
      rcases ht : getField (.obj fields) "type" with _ | j
      · simp [handleMessage, ht]
      · rw [ht] at h2
        cases j with
        | str t =>
          rw [handleMessage_typed conn catalog strategy fields s t ht]
          by_cases hh : t = "hello"
          · subst hh
            rw [if_pos rfl]
            rw [handleHello_no_hello conn _ s (by
              rcases hs : getField (JSON.obj fields) "sessionId" with _ | j2
              · rfl
              · rw [hs] at h2
                cases j2 <;> first | rfl | simp at h2)]
            exact ⟨rfl, rfl⟩
          · rw [if_neg hh]
            by_cases hsub : t = "subscribe"
            · subst hsub
              rw [if_pos rfl]
              exact handleSubscribe_session conn catalog strategy _ s
            · rw [if_neg hsub]
              by_cases h3 : t = "unsubscribe"
              · subst h3
                rw [if_pos rfl]
                exact handleUnsubscribe_session conn _ s
              · rw [if_neg h3]
                exact ⟨rfl, rfl⟩
        | null => simp [handleMessage, ht]
        | bool b => simp [handleMessage, ht]
        | num n => simp [handleMessage, ht]
        | arr xs => simp [handleMessage, ht]
        | obj f2 => simp [handleMessage, ht]

/-- Subscribe with a duplicate subscriptionId: log only. -/
theorem handleSubscribe_dup (conn : Conn) (catalog : Catalog) (strategy : List Nat)
    (m : JSON) (s : ConnState) (offset sid : Int)
    (ho : getField m "offset" = some (.num offset))
    (hi : getField m "subscriptionId" = some (.num sid))
    (hd : hasKey (toString sid) s.subscriptions = true) :
    handleSubscribe conn catalog strategy m s =
      ([logE conn ("subscriptionId sent twice: " ++ toString sid)], s) := by
  simp [handleSubscribe, ho, hi, hd]

/-- Subscribe with an unresolved name: the 404 reply. -/
theorem handleSubscribe_notFound (conn : Conn) (catalog : Catalog) (strategy : List Nat)
    (m : JSON) (s : ConnState) (offset sid : Int)
    (ho : getField m "offset" = some (.num offset))
    (hi : getField m "subscriptionId" = some (.num sid))
    (hd : hasKey (toString sid) s.subscriptions = false)
    (hc : catalog (jsToStringU (getField m "name")) = none) :
    handleSubscribe conn catalog strategy m s =
      ([logE conn ("subscribing to " ++ jsToStringU (getField m "name")),
        send conn (.error sid err404)], s) := by
  simp [handleSubscribe, ho, hi, hd, hc]

/-- Subscribe whose factory result has no subscribe function: console error
and the 500 reply. -/
theorem handleSubscribe_wrongShape (conn : Conn) (catalog : Catalog) (strategy : List Nat)
    (m : JSON) (s : ConnState) (offset sid : Int) (factory : Factory) (shown : String)
    (ho : getField m "offset" = some (.num offset))
    (hi : getField m "subscriptionId" = some (.num sid))
    (hd : hasKey (toString sid) s.subscriptions = false)
    (hc : catalog (jsToStringU (getField m "name")) = some factory)
    (hf : factory offset s.sessionId = .notStreamable shown) :
    handleSubscribe conn catalog strategy m s =
      ([logE conn ("subscribing to " ++ jsToStringU (getField m "name")),
        .factoryCall (jsToStringU (getField m "name")) offset s.sessionId,
        .consoleError ("Expected Rx.Observable instance for key " ++
          jsToStringU (getField m "name") ++ ", got: " ++ shown),
        send conn (.error sid err500)], s) := by
  simp [handleSubscribe, ho, hi, hd, hc, hf]

/-- Subscribe on an array-shaped source: the whole array is stored as one
pending batch followed by completion. -/
theorem handleSubscribe_storeArray (conn : Conn) (catalog : Catalog) (strategy : List Nat)
    (m : JSON) (s : ConnState) (offset sid : Int) (factory : Factory)
    (a : List JSON) (items : List JSON) (terminal : Terminal)
    (ho : getField m "offset" = some (.num offset))
    (hi : getField m "subscriptionId" = some (.num sid))
    (hd : hasKey (toString sid) s.subscriptions = false)
    (hc : catalog (jsToStringU (getField m "name")) = some factory)
    (hf : factory offset s.sessionId = .streamable (some a) items terminal) :
    handleSubscribe conn catalog strategy m s =
      ([logE conn ("subscribing to " ++ jsToStringU (getField m "name")),
        .factoryCall (jsToStringU (getField m "name")) offset s.sessionId],
       { s with subscriptions := (setKey (toString sid)
           ⟨sid, getField m "name", [a], some .complete⟩ s.subscriptions) }) := by
  simp [handleSubscribe, ho, hi, hd, hc, hf]

/-- Subscribe on a non-array source: the items are wrapped by the batching
adapter and the source terminal is kept. -/
theorem handleSubscribe_storeChunks (conn : Conn) (catalog : Catalog) (strategy : List Nat)
    (m : JSON) (s : ConnState) (offset sid : Int) (factory : Factory)
    (items : List JSON) (terminal : Terminal)
    (ho : getField m "offset" = some (.num offset))
    (hi : getField m "subscriptionId" = some (.num sid))
    (hd : hasKey (toString sid) s.subscriptions = false)
    (hc : catalog (jsToStringU (getField m "name")) = some factory)
    (hf : factory offset s.sessionId = .streamable none items terminal) :
    handleSubscribe conn catalog strategy m s =
      ([logE conn ("subscribing to " ++ jsToStringU (getField m "name")),
        .factoryCall (jsToStringU (getField m "name")) offset s.sessionId],
       { s with subscriptions := (setKey (toString sid)
           ⟨sid, getField m "name", chunkBy strategy items, some terminal⟩ s.subscriptions) }) := by
  simp [handleSubscribe, ho, hi, hd, hc, hf]

/-- Delivery tick on a key that is present in the table. -/
theorem deliverStep_found (conn : Conn) (key : String) (s : ConnState) (sub : Subscription)
    (h : lookupSub key s.subscriptions = some sub) :
    deliverStep conn key s =
      ((deliverSub conn sub).1,
       { s with subscriptions := setKey key (deliverSub conn sub).2 s.subscriptions }) := by
  simp only [deliverStep, h]

/-- The send helper never closes the transport, whatever the readyState. -/
theorem send_not_close (conn : Conn) (env : Envelope) :
    (send conn env).isClose = false := by
  unfold send logE
  split <;> rfl

/-- An absent key, as the in operator sees it, is absent for lookup too. -/
theorem hasKey_false_lookup (key : String) (subs : List (String × Subscription))
    (h : hasKey key subs = false) : lookupSub key subs = none := by
  unfold hasKey at h
  cases hl : lookupSub key subs with
  | none => rfl
  | some v => rw [hl] at h; simp at h

/-- Every factory invocation recorded while handling one message carries the
current session id of the connection. -/
theorem handleMessage_factoryCalls (conn : Conn) (catalog : Catalog) (strategy : List Nat)
    (data : Option JSON) (s : ConnState) :
    ∀ x ∈ factoryCalls (handleMessage conn catalog strategy data s).1,
      x.2.2 = s.sessionId := by
  cases data with
  | none => simp [handleMessage, factoryCalls, logE]
  | some m =>
    cases m with
    | null => simp [handleMessage, factoryCalls, logE]
    | bool b => simp [handleMessage, factoryCalls, logE, getField]
    | num n => simp [handleMessage, factoryCalls, logE, getField]
    | str s2 => simp [handleMessage, factoryCalls, logE, getField]
    | arr xs => simp [handleMessage, factoryCalls, logE, getField]
    | obj fields =>
      rcases ht : getField (.obj fields) "type" with _ | j
      · have he : handleMessage conn catalog strategy (some (.obj fields)) s =
            ([logE conn "Received message without a type"], s) := by
          simp only [handleMessage, ht]
        rw [he]
        simp [factoryCalls, logE]
      · cases j with
        | str t =>
          rw [handleMessage_typed conn catalog strategy fields s t ht]
          by_cases hh : t = "hello"
          · subst hh
            rw [if_pos rfl]
            rcases hs : getField (JSON.obj fields) "sessionId" with _ | j2
            · simp [handleHello, hs, factoryCalls, logE]
            · cases j2 <;> simp [handleHello, hs, factoryCalls, logE]
          · rw [if_neg hh]
            by_cases hsub : t = "subscribe"
            · subst hsub
              rw [if_pos rfl]
              rcases ho : getField (JSON.obj fields) "offset" with _ | j2
              · simp [handleSubscribe, ho, factoryCalls, logE]
              · cases j2 with
                | num offset =>
                  rcases hi : getField (JSON.obj fields) "subscriptionId" with _ | j3
                  · simp [handleSubscribe, ho, hi, factoryCalls, logE]
                  · cases j3 with
                    | num sid =>
                      by_cases hd : hasKey (toString sid) s.subscriptions = true
                      · rw [handleSubscribe_dup conn catalog strategy _ s offset sid ho hi hd]
                        simp [factoryCalls, logE]
                      · have hd2 : hasKey (toString sid) s.subscriptions = false := by
                          cases hv : hasKey (toString sid) s.subscriptions
                          · rfl
                          · exact absurd hv hd
                        rcases hc : catalog (jsToStringU (getField (JSON.obj fields) "name"))
                            with _ | factory
                        · rw [handleSubscribe_notFound conn catalog strategy _ s offset sid
                              ho hi hd2 hc]
                          intro x hx
                          simp only [factoryCalls_cons_logE, factoryCalls_cons_sendFn,
                            factoryCalls_nil] at hx
                          exact absurd hx (List.not_mem_nil x)
                        · rcases hf : factory offset s.sessionId
                              with shown | ⟨arrayField, items, terminal⟩
                          · rw [handleSubscribe_wrongShape conn catalog strategy _ s offset sid
                                factory shown ho hi hd2 hc hf]
                            intro x hx
                            simp only [factoryCalls_cons_logE, factoryCalls_cons_factoryCall,
                              factoryCalls_cons_consoleError, factoryCalls_cons_sendFn,
                              factoryCalls_nil, List.mem_singleton] at hx
                            rw [hx]
                          · cases arrayField with
                            | some a =>
                              rw [handleSubscribe_storeArray conn catalog strategy _ s offset sid
                                  factory a items terminal ho hi hd2 hc hf]
                              intro x hx
                              simp only [factoryCalls_cons_logE, factoryCalls_cons_factoryCall,
                                factoryCalls_nil, List.mem_singleton] at hx
                              rw [hx]
                            | none =>
                              rw [handleSubscribe_storeChunks conn catalog strategy _ s offset sid
                                  factory items terminal ho hi hd2 hc hf]
                              intro x hx
                              simp only [factoryCalls_cons_logE, factoryCalls_cons_factoryCall,
                                factoryCalls_nil, List.mem_singleton] at hx
                              rw [hx]
                    | null => simp [handleSubscribe, ho, hi, factoryCalls, logE]
                    | bool b4 => simp [handleSubscribe, ho, hi, factoryCalls, logE]
                    | str s4 => simp [handleSubscribe, ho, hi, factoryCalls, logE]
                    | arr xs4 => simp [handleSubscribe, ho, hi, factoryCalls, logE]
                    | obj f4 => simp [handleSubscribe, ho, hi, factoryCalls, logE]
                | null => simp [handleSubscribe, ho, factoryCalls, logE]
                | bool b4 => simp [handleSubscribe, ho, factoryCalls, logE]
                | str s4 => simp [handleSubscribe, ho, factoryCalls, logE]
                | arr xs4 => simp [handleSubscribe, ho, factoryCalls, logE]
                | obj f4 => simp [handleSubscribe, ho, factoryCalls, logE]
            · rw [if_neg hsub]
              by_cases hun : t = "unsubscribe"
              · subst hun
                rw [if_pos rfl]
                rcases hi : getField (JSON.obj fields) "subscriptionId" with _ | j3
                · rcases hl : lookupSub (jsToStringU none) s.subscriptions with _ | sub
                  · simp [handleUnsubscribe, hi, hl, factoryCalls, logE]
                  · simp [handleUnsubscribe, hi, hl, factoryCalls, logE]
                · rcases hl : lookupSub (jsToStringU (some j3)) s.subscriptions with _ | sub
                  · simp [handleUnsubscribe, hi, hl, factoryCalls, logE]
                  · cases j3 <;> simp [handleUnsubscribe, hi, hl, factoryCalls, logE]
              · rw [if_neg hun]
                simp [factoryCalls, logE]
        | null =>
          have he : handleMessage conn catalog strategy (some (.obj fields)) s =
              ([logE conn "Received message without a type"], s) := by
            simp only [handleMessage, ht]
          rw [he]; simp [factoryCalls, logE]
        | bool b =>
          have he : handleMessage conn catalog strategy (some (.obj fields)) s =
              ([logE conn "Received message without a type"], s) := by
            simp only [handleMessage, ht]
          rw [he]; simp [factoryCalls, logE]
        | num n =>
          have he : handleMessage conn catalog strategy (some (.obj fields)) s =
              ([logE conn "Received message without a type"], s) := by
            simp only [handleMessage, ht]
          rw [he]; simp [factoryCalls, logE]
        | arr xs =>
          have he : handleMessage conn catalog strategy (some (.obj fields)) s =
              ([logE conn "Received message without a type"], s) := by
            simp only [handleMessage, ht]
          rw [he]; simp [factoryCalls, logE]
        | obj f2 =>
          have he : handleMessage conn catalog strategy (some (.obj fields)) s =
              ([logE conn "Received message without a type"], s) := by
            simp only [handleMessage, ht]
          rw [he]; simp [factoryCalls, logE]

/-- A delivery tick never changes the session id. -/
theorem deliverStep_session (conn : Conn) (key : String) (s : ConnState) :
    (deliverStep conn key s).2.sessionId = s.sessionId := by
  rcases hl : lookupSub key s.subscriptions with _ | sub
  · simp [deliverStep, hl]
  · simp [deliverStep, hl]

/-- A delivery tick ingests no domain event and invokes no factory. -/
theorem deliverStep_events (conn : Conn) (key : String) (s : ConnState) :
    domainEvents (deliverStep conn key s).1 = [] ∧
    factoryCalls (deliverStep conn key s).1 = [] := by
  rcases hl : lookupSub key s.subscriptions with _ | sub
  · simp [deliverStep, hl]
  · simp only [deliverStep, hl]
    rcases sub with ⟨sid, nm, pending, pt⟩
    cases pending with
    | cons b rest => simp [deliverSub]
    | nil =>
      cases pt with
      | none => simp [deliverSub]
      | some t =>
        cases t with
        | complete => simp [deliverSub]
        | error e => simp [deliverSub, logE]

/-- Cleanup ingests exactly the connection-closed event, stamped with the
current session id. -/
theorem cleanup_events (conn : Conn) (s : ConnState) :
    domainEvents (cleanup conn s).1 = [("connection-closed", mkMeta conn s.sessionId)] := by
  simp [cleanup, logE, domainEvents_map_cancel]

/-- Cleanup invokes no factory. -/
theorem cleanup_factoryCalls (conn : Conn) (s : ConnState) :
    factoryCalls (cleanup conn s).1 = [] := by
  simp [cleanup, logE, factoryCalls_map_cancel]

/-- Invariant of a run that contains no valid hello: the session id stays
null, every ingested domain event is stamped with a null session id, and
every factory invocation receives a null session id. -/
theorem runSteps_no_hello (conn : Conn) (catalog : Catalog) (strategy : List Nat) :
    ∀ (steps : List Step) (s : ConnState), s.sessionId = none →
    (∀ d, Step.msg d ∈ steps → validHelloMsg d = false) →
    (runSteps conn catalog strategy steps s).2.sessionId = none ∧
    (∀ p ∈ domainEvents (runSteps conn catalog strategy steps s).1,
       p.2 = mkMeta conn none) ∧
    (∀ x ∈ factoryCalls (runSteps conn catalog strategy steps s).1, x.2.2 = none) := by
  intro steps
  induction steps with
  | nil =>
    intro s hs hmsg
    exact ⟨hs, by simp [runSteps], by simp [runSteps]⟩
  | cons st rest ih =>
    intro s hs hmsg
    have hred : runSteps conn catalog strategy (st :: rest) s =
        ((applyStep conn catalog strategy st s).1 ++
         (runSteps conn catalog strategy rest (applyStep conn catalog strategy st s).2).1,
         (runSteps conn catalog strategy rest (applyStep conn catalog strategy st s).2).2) := rfl
    rw [hred]
    have hstep : (applyStep conn catalog strategy st s).2.sessionId = none ∧
        (∀ p ∈ domainEvents (applyStep conn catalog strategy st s).1, p.2 = mkMeta conn none) ∧
        (∀ x ∈ factoryCalls (applyStep conn catalog strategy st s).1, x.2.2 = none) := by
      cases st with
      | msg d =>
        have hv : validHelloMsg d = false := hmsg d (List.mem_cons_self _ _)
        have h1 := handleMessage_no_hello conn catalog strategy d s hv
        refine ⟨?_, ?_, ?_⟩
        · show (handleMessage conn catalog strategy d s).2.sessionId = none
          rw [h1.1, hs]
        · intro p hp
          rw [show (applyStep conn catalog strategy (Step.msg d) s).1 =
              (handleMessage conn catalog strategy d s).1 from rfl, h1.2] at hp
          exact absurd hp (List.not_mem_nil p)
        · intro x hx
          have h2 := handleMessage_factoryCalls conn catalog strategy d s x hx
          rw [h2, hs]
      | deliver key =>
        refine ⟨?_, ?_, ?_⟩
        · show (deliverStep conn key s).2.sessionId = none
          rw [deliverStep_session, hs]
        · intro p hp
          rw [show (applyStep conn catalog strategy (Step.deliver key) s).1 =
              (deliverStep conn key s).1 from rfl, (deliverStep_events conn key s).1] at hp
          exact absurd hp (List.not_mem_nil p)
        · intro x hx
          rw [show (applyStep conn catalog strategy (Step.deliver key) s).1 =
              (deliverStep conn key s).1 from rfl, (deliverStep_events conn key s).2] at hx
          exact absurd hx (List.not_mem_nil x)
      | close =>
        refine ⟨?_, ?_, ?_⟩
        · show (cleanup conn s).2.sessionId = none
          rw [show (cleanup conn s).2.sessionId = s.sessionId from rfl, hs]
        · intro p hp
          rw [show (applyStep conn catalog strategy Step.close s).1 =
              (cleanup conn s).1 from rfl, cleanup_events conn s] at hp
          rw [List.mem_singleton] at hp
          rw [hp]
          show mkMeta conn s.sessionId = mkMeta conn none
          rw [hs]
        · intro x hx
          rw [show (applyStep conn catalog strategy Step.close s).1 =
              (cleanup conn s).1 from rfl, cleanup_factoryCalls conn s] at hx
          exact absurd hx (List.not_mem_nil x)
    have hrest := ih (applyStep conn catalog strategy st s).2 hstep.1
      (fun d hd => hmsg d (List.mem_cons_of_mem _ hd))
    refine ⟨hrest.1, ?_, ?_⟩
    · intro p hp
      rw [domainEvents_append] at hp
      rcases List.mem_append.mp hp with hcase | hcase
      · exact hstep.2.1 p hcase
      · exact hrest.2.1 p hcase
    · intro x hx
      rw [factoryCalls_append] at hx
      rcases List.mem_append.mp hx with hcase | hcase
      · exact hstep.2.2 x hcase
      · exact hrest.2.2 x hcase

end Lemmas

/-- Claim C3: for every subscribe message with numeric offset and numeric
subscriptionId not already in the table, whose name is not resolved by the
stream catalog, exactly one outbound envelope is sent, the error envelope
with the 404 code object and that subscriptionId, and no Subscription is
added to the table (the state is unchanged). -/
theorem claim3_unknown_name_404 (conn : Conn) (catalog : Catalog) (strategy : List Nat)
    (fields : List (String × JSON)) (s : ConnState) (offset sid : Int)
    (hopen : conn.readyState = 1)
    (ht : getField (.obj fields) "type" = some (.str "subscribe"))
    (ho : getField (.obj fields) "offset" = some (.num offset))
    (hi : getField (.obj fields) "subscriptionId" = some (.num sid))
    (hd : hasKey (toString sid) s.subscriptions = false)
    (hc : catalog (jsToStringU (getField (.obj fields) "name")) = none) :
    sentEnvelopes (handleMessage conn catalog strategy (some (.obj fields)) s).1 =
      [.error sid err404] ∧
    (handleMessage conn catalog strategy (some (.obj fields)) s).1 =
      [logE conn ("subscribing to " ++ jsToStringU (getField (.obj fields) "name")),
       .sendEnv (.error sid err404)] ∧
    (handleMessage conn catalog strategy (some (.obj fields)) s).2 = s := by
  rw [handleMessage_typed conn catalog strategy fields s "subscribe" ht]
  rw [if_neg (by decide), if_pos rfl]
  rw [handleSubscribe_notFound conn catalog strategy _ s offset sid ho hi hd hc]
  rw [show send conn (Envelope.error sid err404) = .sendEnv (.error sid err404) by
    simp [send, hopen]]
  exact ⟨rfl, rfl, rfl⟩

/-- Claim C3 witness: the theorem applied to a concrete subscribe for the
unknown name news against the empty catalog. -/
theorem claim3_witness :
    sentEnvelopes (handleMessage conn0 catEmpty [] (some (mkSubscribe 7 "news" 0)) initState).1 =
      [.error 7 err404] ∧
    (handleMessage conn0 catEmpty [] (some (mkSubscribe 7 "news" 0)) initState).1 =
      [logE conn0 ("subscribing to " ++ jsToStringU (getField (mkSubscribe 7 "news" 0) "name")),
       .sendEnv (.error 7 err404)] ∧
    (handleMessage conn0 catEmpty [] (some (mkSubscribe 7 "news" 0)) initState).2 = initState :=
  claim3_unknown_name_404 conn0 catEmpty []
    [("type", .str "subscribe"), ("subscriptionId", .num 7), ("name", .str "news"), ("offset", .num 0)]
    initState 0 7 rfl rfl rfl rfl rfl rfl

/-- Claim C6: invoking cleanup on a connection with K table entries logs,
cancels each of the K entries via its handle, empties the table, ingests
exactly one connection-closed domain event, sends no envelope itself, and
afterwards no delivery tick for any key produces an effect (so no further
outbound envelope can be sent for any of the cancelled subscriptions). -/
theorem claim6_cleanup_cancels_all (conn : Conn) (s : ConnState) :
    (cleanup conn s).2.subscriptions = [] ∧
    (cleanup conn s).1 =
      logE conn "Closing WebSocket" ::
        (s.subscriptions.map (fun kv => Effect.cancel kv.1) ++
         [Effect.emitEvent "connection-closed" (mkMeta conn s.sessionId)]) ∧
    domainEvents (cleanup conn s).1 = [("connection-closed", mkMeta conn s.sessionId)] ∧
    sentEnvelopes (cleanup conn s).1 = [] ∧
    (∀ key, deliverStep conn key (cleanup conn s).2 = ([], (cleanup conn s).2)) := by
  refine ⟨rfl, rfl, ?_, ?_, ?_⟩
  · simp [cleanup, logE, domainEvents_map_cancel]
  · simp [cleanup, logE, sentEnvelopes_map_cancel]
  · intro key
    rfl

/-- Claim C7 counterexample: running cleanup when the table is already empty
is not a no-op; it still ingests one connection-closed domain event (and a
log line). -/
theorem claim7_cex_cleanup_empty_emits :
    domainEvents (cleanup conn0 initState).1 =
      [("connection-closed",
        { connectionId := "conn-1", sessionId := none, ipAddress := "127.0.0.1" })] ∧
    domainEvents (cleanup conn0 initState).1 ≠ [] := by
  refine ⟨rfl, ?_⟩
  show ("connection-closed",
        ({ connectionId := "conn-1", sessionId := none, ipAddress := "127.0.0.1" } : Meta)) ::
        [] ≠ []
  exact List.cons_ne_nil _ _

/-- Claim C7 as amended: running cleanup on an empty table cancels nothing and
sends no envelope, and leaves the state unchanged, but it is not a complete
no-op: it still logs and ingests exactly one connection-closed domain
event. -/
theorem claim7_cleanup_empty (conn : Conn) (s : ConnState)
    (h : s.subscriptions = []) :
    (cleanup conn s).1 =
      [logE conn "Closing WebSocket",
       Effect.emitEvent "connection-closed" (mkMeta conn s.sessionId)] ∧
    sentEnvelopes (cleanup conn s).1 = [] ∧
    ((cleanup conn s).1.filterMap
        (fun e => match e with | Effect.cancel k => some k | _ => none)) = [] ∧
    domainEvents (cleanup conn s).1 = [("connection-closed", mkMeta conn s.sessionId)] ∧
    (cleanup conn s).2 = s := by
  refine ⟨?_, ?_, ?_, ?_, ?_⟩
  · simp [cleanup, h]
  · simp [cleanup, h, sentEnvelopes, logE]
  · simp [cleanup, h, logE]
  · simp [cleanup, h, domainEvents, logE]
  · cases s with
    | mk sess subs =>
      simp only at h
      simp [cleanup, h]

/-- Claim C7 witness: the amended theorem applied to the concrete empty
state. -/
theorem claim7_witness :
    (cleanup conn0 initState).1 =
      [logE conn0 "Closing WebSocket",
       Effect.emitEvent "connection-closed" (mkMeta conn0 none)] ∧
    sentEnvelopes (cleanup conn0 initState).1 = [] ∧
    ((cleanup conn0 initState).1.filterMap
        (fun e => match e with | Effect.cancel k => some k | _ => none)) = [] ∧
    domainEvents (cleanup conn0 initState).1 = [("connection-closed", mkMeta conn0 none)] ∧
    (cleanup conn0 initState).2 = initState :=
  claim7_cleanup_empty conn0 initState rfl

/-- Claim C8: the batching adapter (modelled from the spec, since the
rewrapBatches source file is not in the repository snapshot) emits only
non-empty batches whose concatenation in order is exactly the item sequence
of the source, for every grouping strategy; and the delivery semantics
propagates the terminal notification only once every pending batch has been
delivered: while a batch is pending, a delivery tick emits exactly that
events envelope and no terminal envelope, and the terminal envelope is
produced exactly by the first tick after the last batch. -/
theorem claim8_batching_round_trip (strategy : List Nat) (items : List JSON) :
    (∀ b ∈ chunkBy strategy items, b ≠ []) ∧
    (chunkBy strategy items).flatten = items ∧
    (∀ (conn : Conn) (sid : Int) (nm : Option JSON) (pt : Option Terminal)
       (b : List JSON) (rest : List (List JSON)),
       (deliverSub conn ⟨sid, nm, b :: rest, pt⟩).1 = [send conn (.events sid b)] ∧
       (deliverSub conn ⟨sid, nm, b :: rest, pt⟩).2 = ⟨sid, nm, rest, pt⟩) ∧
    (∀ (conn : Conn) (sid : Int) (nm : Option JSON),
       (deliverSub conn ⟨sid, nm, [], some .complete⟩).1 = [send conn (.complete sid)]) ∧
    (∀ (conn : Conn) (sid : Int) (nm : Option JSON) (e : JSON),
       (deliverSub conn ⟨sid, nm, [], some (.error e)⟩).1 =
         [logE conn (jsToString e), send conn (.error sid e)]) := by
  refine ⟨chunkBy_ne_nil strategy items, chunkBy_flatten strategy items, ?_, ?_, ?_⟩
  · intro conn sid nm pt b rest
    exact ⟨rfl, rfl⟩
  · intro conn sid nm
    rfl
  · intro conn sid nm e
    rfl

/-- Claim C8 witness: the round-trip law evaluated at a concrete grouping of
a three item source into a batch of two and a batch of one. -/
theorem claim8_witness :
    (chunkBy [1, 0] [JSON.num 1, JSON.num 2, JSON.num 3]).flatten =
      [JSON.num 1, JSON.num 2, JSON.num 3] :=
  (claim8_batching_round_trip [1, 0] [JSON.num 1, JSON.num 2, JSON.num 3]).2.1

/-- Claim C9: for every subscribe whose factory returns an array-shaped
source (a streamable value whose array field is an array), the stored
subscription delivers exactly one events envelope carrying the full array,
followed by a complete envelope, and then nothing more: no re-batching is
applied. -/
theorem claim9_array_passthrough (conn : Conn) (catalog : Catalog) (strategy : List Nat)
    (fields : List (String × JSON)) (s : ConnState) (offset sid : Int) (factory : Factory)
    (a : List JSON) (items : List JSON) (terminal : Terminal)
    (hopen : conn.readyState = 1)
    (ht : getField (.obj fields) "type" = some (.str "subscribe"))
    (ho : getField (.obj fields) "offset" = some (.num offset))
    (hi : getField (.obj fields) "subscriptionId" = some (.num sid))
    (hd : hasKey (toString sid) s.subscriptions = false)
    (hc : catalog (jsToStringU (getField (.obj fields) "name")) = some factory)
    (hf : factory offset s.sessionId = .streamable (some a) items terminal) :
    sentEnvelopes (handleMessage conn catalog strategy (some (.obj fields)) s).1 = [] ∧
    lookupSub (toString sid)
        (handleMessage conn catalog strategy (some (.obj fields)) s).2.subscriptions =
      some ⟨sid, getField (.obj fields) "name", [a], some .complete⟩ ∧
    (deliverStep conn (toString sid)
        (handleMessage conn catalog strategy (some (.obj fields)) s).2).1 =
      [Effect.sendEnv (.events sid a)] ∧
    (deliverStep conn (toString sid)
        (deliverStep conn (toString sid)
          (handleMessage conn catalog strategy (some (.obj fields)) s).2).2).1 =
      [Effect.sendEnv (.complete sid)] ∧
    (deliverStep conn (toString sid)
        (deliverStep conn (toString sid)
          (deliverStep conn (toString sid)
            (handleMessage conn catalog strategy (some (.obj fields)) s).2).2).2).1 = [] := by
  have e1 : handleMessage conn catalog strategy (some (.obj fields)) s =
      ([logE conn ("subscribing to " ++ jsToStringU (getField (.obj fields) "name")),
        .factoryCall (jsToStringU (getField (.obj fields) "name")) offset s.sessionId],
       { s with subscriptions := (setKey (toString sid)
          ⟨sid, getField (.obj fields) "name", [a], some .complete⟩ s.subscriptions) }) := by
    rw [handleMessage_typed conn catalog strategy fields s "subscribe" ht,
        if_neg (by decide), if_pos rfl,
        handleSubscribe_storeArray conn catalog strategy _ s offset sid factory a items terminal
          ho hi hd hc hf]
  have h1 : lookupSub (toString sid)
      (setKey (toString sid)
        (⟨sid, getField (.obj fields) "name", [a], some .complete⟩ : Subscription)
        s.subscriptions) =
      some ⟨sid, getField (.obj fields) "name", [a], some .complete⟩ :=
    lookupSub_setKey_self _ _ _
  have d1 : deliverStep conn (toString sid)
      ({ s with subscriptions := (setKey (toString sid)
          ⟨sid, getField (.obj fields) "name", [a], some .complete⟩ s.subscriptions) }) =
      ([Effect.sendEnv (.events sid a)],
       { s with subscriptions := (setKey (toString sid)
          ⟨sid, getField (.obj fields) "name", [], some .complete⟩
          (setKey (toString sid)
            ⟨sid, getField (.obj fields) "name", [a], some .complete⟩ s.subscriptions)) }) := by
    rw [deliverStep_found conn (toString sid) _ _ h1]
    simp [deliverSub, send, hopen]
  have h2 : lookupSub (toString sid)
      (setKey (toString sid)
        (⟨sid, getField (.obj fields) "name", [], some .complete⟩ : Subscription)
        (setKey (toString sid)
          (⟨sid, getField (.obj fields) "name", [a], some .complete⟩ : Subscription)
          s.subscriptions)) =
      some ⟨sid, getField (.obj fields) "name", [], some .complete⟩ :=
    lookupSub_setKey_self _ _ _
  have d2 : deliverStep conn (toString sid)
      ({ s with subscriptions := (setKey (toString sid)
          ⟨sid, getField (.obj fields) "name", [], some .complete⟩
          (setKey (toString sid)
            ⟨sid, getField (.obj fields) "name", [a], some .complete⟩ s.subscriptions)) }) =
      ([Effect.sendEnv (.complete sid)],
       { s with subscriptions := (setKey (toString sid)
          ⟨sid, getField (.obj fields) "name", [], none⟩
          (setKey (toString sid)
            ⟨sid, getField (.obj fields) "name", [], some .complete⟩
            (setKey (toString sid)
              ⟨sid, getField (.obj fields) "name", [a], some .complete⟩ s.subscriptions))) }) := by
    rw [deliverStep_found conn (toString sid) _ _ h2]
    simp [deliverSub, send, hopen]
  have h3 : lookupSub (toString sid)
      (setKey (toString sid)
        (⟨sid, getField (.obj fields) "name", [], none⟩ : Subscription)
        (setKey (toString sid)
          (⟨sid, getField (.obj fields) "name", [], some .complete⟩ : Subscription)
          (setKey (toString sid)
            (⟨sid, getField (.obj fields) "name", [a], some .complete⟩ : Subscription)
            s.subscriptions))) =
      some ⟨sid, getField (.obj fields) "name", [], none⟩ :=
    lookupSub_setKey_self _ _ _
  have d3 : (deliverStep conn (toString sid)
      ({ s with subscriptions := (setKey (toString sid)
          ⟨sid, getField (.obj fields) "name", [], none⟩
          (setKey (toString sid)
            ⟨sid, getField (.obj fields) "name", [], some .complete⟩
            (setKey (toString sid)
              ⟨sid, getField (.obj fields) "name", [a], some .complete⟩ s.subscriptions))) })).1 =
      [] := by
    rw [deliverStep_found conn (toString sid) _ _ h3]
    rfl
  refine ⟨?_, ?_, ?_, ?_, ?_⟩
  · rw [e1]
    rfl
  · rw [e1]
    exact h1
  · rw [e1]
    exact congrArg Prod.fst d1
  · rw [e1]
    rw [show (deliverStep conn (toString sid)
        ({ s with subscriptions := (setKey (toString sid)
            ⟨sid, getField (.obj fields) "name", [a], some .complete⟩ s.subscriptions) })).2 =
        ({ s with subscriptions := (setKey (toString sid)
            ⟨sid, getField (.obj fields) "name", [], some .complete⟩
            (setKey (toString sid)
              ⟨sid, getField (.obj fields) "name", [a], some .complete⟩ s.subscriptions)) })
      from congrArg Prod.snd d1]
    exact congrArg Prod.fst d2
  · rw [e1]
    rw [show (deliverStep conn (toString sid)
        ({ s with subscriptions := (setKey (toString sid)
            ⟨sid, getField (.obj fields) "name", [a], some .complete⟩ s.subscriptions) })).2 =
        ({ s with subscriptions := (setKey (toString sid)
            ⟨sid, getField (.obj fields) "name", [], some .complete⟩
            (setKey (toString sid)
              ⟨sid, getField (.obj fields) "name", [a], some .complete⟩ s.subscriptions)) })
      from congrArg Prod.snd d1]
    rw [show (deliverStep conn (toString sid)
        ({ s with subscriptions := (setKey (toString sid)
            ⟨sid, getField (.obj fields) "name", [], some .complete⟩
            (setKey (toString sid)
              ⟨sid, getField (.obj fields) "name", [a], some .complete⟩ s.subscriptions)) })).2 =
        ({ s with subscriptions := (setKey (toString sid)
            ⟨sid, getField (.obj fields) "name", [], none⟩
            (setKey (toString sid)
              ⟨sid, getField (.obj fields) "name", [], some .complete⟩
              (setKey (toString sid)
                ⟨sid, getField (.obj fields) "name", [a], some .complete⟩ s.subscriptions))) })
      from congrArg Prod.snd d2]
    exact d3

/-- Claim C9 witness: a concrete subscribe to the array-shaped source tbl,
delivering its two items as one batch and then completing. -/
theorem claim9_witness :
    sentEnvelopes (handleMessage conn0 catArray [] (some (mkSubscribe 3 "tbl" 0)) initState).1 = [] ∧
    lookupSub "3" (handleMessage conn0 catArray [] (some (mkSubscribe 3 "tbl" 0)) initState).2.subscriptions =
      some ⟨3, getField (mkSubscribe 3 "tbl" 0) "name", [[.num 10, .num 20]], some .complete⟩ ∧
    (deliverStep conn0 "3"
        (handleMessage conn0 catArray [] (some (mkSubscribe 3 "tbl" 0)) initState).2).1 =
      [Effect.sendEnv (.events 3 [.num 10, .num 20])] ∧
    (deliverStep conn0 "3"
        (deliverStep conn0 "3"
          (handleMessage conn0 catArray [] (some (mkSubscribe 3 "tbl" 0)) initState).2).2).1 =
      [Effect.sendEnv (.complete 3)] ∧
    (deliverStep conn0 "3"
        (deliverStep conn0 "3"
          (deliverStep conn0 "3"
            (handleMessage conn0 catArray [] (some (mkSubscribe 3 "tbl" 0)) initState).2).2).2).1 = [] :=
  claim9_array_passthrough conn0 catArray []
    [("type", .str "subscribe"), ("subscriptionId", .num 3), ("name", .str "tbl"), ("offset", .num 0)]
    initState 0 3 (fun _ _ => .streamable (some [.num 10, .num 20]) [.num 10, .num 20] .complete)
    [.num 10, .num 20] [.num 10, .num 20] .complete
    rfl rfl rfl rfl rfl rfl rfl

/-- Claim C4 counterexample: when the factory for the name bad returns a
value with no subscribe function, the envelope actually sent carries the code
field as the string quote-500-quote, not the number 500 stated by the
claim. -/
theorem claim4_cex_code_is_string :
    sentEnvelopes (handleMessage conn0 catBad [] (some (mkSubscribe 1 "bad" 0)) initState).1 =
      [.error 1 err500] ∧
    getField err500 "code" = some (.str "500") ∧
    getField err500 "code" ≠ some (.num 500) := by
  refine ⟨rfl, rfl, ?_⟩
  show some (JSON.str "500") ≠ some (JSON.num 500)
  intro hcontra
  injection hcontra with hcontra2
  exact JSON.noConfusion hcontra2

/-- Claim C4 as amended: for every subscribe whose name resolves to a factory
whose result has no subscribe function, the failure is logged through
console.error, exactly one envelope is sent, the error envelope whose error
object carries code as the string quote-500-quote and the message Internal
Server Error, and no Subscription is added (the state is unchanged). -/
theorem claim4_wrong_shape_500 (conn : Conn) (catalog : Catalog) (strategy : List Nat)
    (fields : List (String × JSON)) (s : ConnState) (offset sid : Int)
    (factory : Factory) (shown : String)
    (hopen : conn.readyState = 1)
    (ht : getField (.obj fields) "type" = some (.str "subscribe"))
    (ho : getField (.obj fields) "offset" = some (.num offset))
    (hi : getField (.obj fields) "subscriptionId" = some (.num sid))
    (hd : hasKey (toString sid) s.subscriptions = false)
    (hc : catalog (jsToStringU (getField (.obj fields) "name")) = some factory)
    (hf : factory offset s.sessionId = .notStreamable shown) :
    (handleMessage conn catalog strategy (some (.obj fields)) s).1 =
      [logE conn ("subscribing to " ++ jsToStringU (getField (.obj fields) "name")),
       .factoryCall (jsToStringU (getField (.obj fields) "name")) offset s.sessionId,
       .consoleError ("Expected Rx.Observable instance for key " ++
         jsToStringU (getField (.obj fields) "name") ++ ", got: " ++ shown),
       .sendEnv (.error sid err500)] ∧
    sentEnvelopes (handleMessage conn catalog strategy (some (.obj fields)) s).1 =
      [.error sid err500] ∧
    (handleMessage conn catalog strategy (some (.obj fields)) s).2 = s ∧
    getField err500 "code" = some (.str "500") := by
  rw [handleMessage_typed conn catalog strategy fields s "subscribe" ht]
  rw [if_neg (by decide), if_pos rfl]
  rw [handleSubscribe_wrongShape conn catalog strategy _ s offset sid factory shown ho hi hd hc hf]
  rw [show send conn (Envelope.error sid err500) = .sendEnv (.error sid err500) by
    simp [send, hopen]]
  exact ⟨rfl, rfl, rfl, rfl⟩

/-- Claim C4 witness: the amended theorem applied to the concrete catalog
whose factory for bad returns the number 42. -/
theorem claim4_witness :
    (handleMessage conn0 catBad [] (some (mkSubscribe 1 "bad" 0)) initState).1 =
      [logE conn0 ("subscribing to " ++ jsToStringU (getField (mkSubscribe 1 "bad" 0) "name")),
       .factoryCall (jsToStringU (getField (mkSubscribe 1 "bad" 0) "name")) 0 none,
       .consoleError ("Expected Rx.Observable instance for key " ++
         jsToStringU (getField (mkSubscribe 1 "bad" 0) "name") ++ ", got: " ++ "42"),
       .sendEnv (.error 1 err500)] ∧
    sentEnvelopes (handleMessage conn0 catBad [] (some (mkSubscribe 1 "bad" 0)) initState).1 =
      [.error 1 err500] ∧
    (handleMessage conn0 catBad [] (some (mkSubscribe 1 "bad" 0)) initState).2 = initState ∧
    getField err500 "code" = some (.str "500") :=
  claim4_wrong_shape_500 conn0 catBad []
    [("type", .str "subscribe"), ("subscriptionId", .num 1), ("name", .str "bad"), ("offset", .num 0)]
    initState 0 1 (fun _ _ => .notStreamable "42") "42"
    rfl rfl rfl rfl rfl rfl rfl

/-- Claim C5 counterexample: after the stream of subscription 1 completes (the
complete envelope has been sent), the Subscription is still in the table, and
a later subscribe reusing subscriptionId 1 is rejected as a duplicate, so the
id does not become available for reuse. -/
theorem claim5_cex_not_removed :
    sentEnvelopes (runSteps conn0 catFeed []
        [.msg (some (mkSubscribe 1 "feed" 0)), .deliver "1"] initState).1 =
      [.complete 1] ∧
    lookupSub "1" (runSteps conn0 catFeed []
        [.msg (some (mkSubscribe 1 "feed" 0)), .deliver "1"] initState).2.subscriptions =
      some ⟨1, some (.str "feed"), [], none⟩ ∧
    (handleMessage conn0 catFeed [] (some (mkSubscribe 1 "feed" 0))
        (runSteps conn0 catFeed []
          [.msg (some (mkSubscribe 1 "feed" 0)), .deliver "1"] initState).2).1 =
      [logE conn0 "subscriptionId sent twice: 1"] ∧
    (handleMessage conn0 catFeed [] (some (mkSubscribe 1 "feed" 0))
        (runSteps conn0 catFeed []
          [.msg (some (mkSubscribe 1 "feed" 0)), .deliver "1"] initState).2).2.subscriptions =
      [("1", ⟨1, some (.str "feed"), [], none⟩)] := by
  exact ⟨rfl, rfl, rfl, rfl⟩

/-- Claim C5 as amended: when the batched stream of an active subscription
reaches its terminal notification, the observer sends the corresponding
terminal envelope (complete on completion, a log line plus an error envelope
on error), but the Subscription is not removed from the subscription table:
the entry stays (with no pending terminal), so its subscriptionId remains
unavailable until an explicit unsubscribe or the connection close. -/
theorem claim5_terminal_envelope_retention (conn : Conn) (key : String)
    (s : ConnState) (sub : Subscription) (t : Terminal)
    (hopen : conn.readyState = 1)
    (hlook : lookupSub key s.subscriptions = some sub)
    (hpend : sub.pending = [])
    (hterm : sub.pendingTerminal = some t) :
    (t = .complete → (deliverStep conn key s).1 = [Effect.sendEnv (.complete sub.sid)]) ∧
    (∀ e, t = .error e →
       (deliverStep conn key s).1 =
         [logE conn (jsToString e), Effect.sendEnv (.error sub.sid e)]) ∧
    lookupSub key (deliverStep conn key s).2.subscriptions =
      some { sub with pendingTerminal := none } := by
  rw [deliverStep_found conn key s sub hlook]
  have hsub : deliverSub conn sub =
      (match t with
       | .complete => [Effect.sendEnv (.complete sub.sid)]
       | .error e => [logE conn (jsToString e), Effect.sendEnv (.error sub.sid e)],
       { sub with pendingTerminal := none }) := by
    cases t with
    | complete => simp [deliverSub, hpend, hterm, send, hopen]
    | error e => simp [deliverSub, hpend, hterm, send, hopen]
  rw [hsub]
  refine ⟨?_, ?_, ?_⟩
  · intro hc2
    subst hc2
    rfl
  · intro e hc2
    subst hc2
    rfl
  · exact lookupSub_setKey_self _ _ _

/-- Claim C5 witness: the amended theorem applied to a concrete table holding
one exhausted subscription about to complete. -/
theorem claim5_witness :
    ((Terminal.complete = .complete →
       (deliverStep conn0 "1" ⟨none, [("1", ⟨1, some (.str "feed"), [], some .complete⟩)]⟩).1 =
         [Effect.sendEnv (.complete 1)]) ∧
     (∀ e, Terminal.complete = .error e →
       (deliverStep conn0 "1" ⟨none, [("1", ⟨1, some (.str "feed"), [], some .complete⟩)]⟩).1 =
         [logE conn0 (jsToString e), Effect.sendEnv (.error 1 e)]) ∧
     lookupSub "1" (deliverStep conn0 "1"
         ⟨none, [("1", ⟨1, some (.str "feed"), [], some .complete⟩)]⟩).2.subscriptions =
       some ⟨1, some (.str "feed"), [], none⟩) :=
  claim5_terminal_envelope_retention conn0 "1"
    ⟨none, [("1", ⟨1, some (.str "feed"), [], some .complete⟩)]⟩
    ⟨1, some (.str "feed"), [], some .complete⟩ .complete rfl rfl rfl rfl

/-- Claim C1 counterexample: the subscribe frame with numeric offset 0 and
numeric subscriptionId 1 but no name field is a protocol error in the sense
of the claim (schema-invalid missing name), yet an envelope is sent for it:
the catalog lookup runs on the property key undefined, misses, and the 404
error envelope goes out to the client. -/
theorem claim1_cex_missing_name_replies :
    protocolErrorSpec initState (some mNoName) = true ∧
    sentEnvelopes (handleMessage conn0 catEmpty [] (some mNoName) initState).1 =
      [.error 1 err404] ∧
    sentEnvelopes (handleMessage conn0 catEmpty [] (some mNoName) initState).1 ≠ [] := by
  refine ⟨rfl, rfl, ?_⟩
  show ((Envelope.error 1 err404) :: []) ≠ []
  exact List.cons_ne_nil _ _

/-- Claim C1 as amended: for every inbound protocol-error message in the
claim taxonomy minus its name clause — unparseable JSON, missing or
non-string type field, non-string sessionId on hello, non-numeric offset or
subscriptionId on subscribe, duplicate subscriptionId, unknown type, and an
unsubscribe whose subscriptionId is not in the table or is non-numeric — the
message is logged, the connection is not closed, no envelope is sent to the
client, and the subscription table is unchanged.  The amendment: the source
never validates the name field of a subscribe, so a missing or non-string
name is not treated as a protocol error; it proceeds to the catalog lookup
and can produce a 404 error envelope (see the counterexample). -/
theorem claim1_protocol_error_silent (conn : Conn) (catalog : Catalog) (strategy : List Nat)
    (data : Option JSON) (s : ConnState)
    (h : protocolError s data = true) :
    (handleMessage conn catalog strategy data s).1.any Effect.isLog = true ∧
    (handleMessage conn catalog strategy data s).1.all (fun e => !e.isClose) = true ∧
    sentEnvelopes (handleMessage conn catalog strategy data s).1 = [] ∧
    (handleMessage conn catalog strategy data s).2.subscriptions = s.subscriptions := by
  cases data with
  | none => exact ⟨rfl, rfl, rfl, rfl⟩
  | some m =>
    cases m with
    | null => exact ⟨rfl, rfl, rfl, rfl⟩
    | bool b => exact ⟨rfl, rfl, rfl, rfl⟩
    | num n => exact ⟨rfl, rfl, rfl, rfl⟩
    | str s2 => exact ⟨rfl, rfl, rfl, rfl⟩
    | arr xs => exact ⟨rfl, rfl, rfl, rfl⟩
    | obj fields =>
      have h2 : (match getField (JSON.obj fields) "type" with
                 | some (.str t) =>
                   if t = "hello" then
                     (match getField (JSON.obj fields) "sessionId" with
                      | some (.str _) => false
                      | _ => true)
                   else if t = "subscribe" then subscribeProtoErr s (JSON.obj fields)
                   else if t = "unsubscribe" then
                     (match lookupSub (jsToStringU (getField (JSON.obj fields) "subscriptionId"))
                         s.subscriptions with
                      | none => true
                      | some _ =>
                        match getField (JSON.obj fields) "subscriptionId" with
                        | some (.num _) => false
                        | _ => true)
                   else true
                 | _ => true) = true := h
      rcases ht : getField (.obj fields) "type" with _ | j
      · have he : handleMessage conn catalog strategy (some (.obj fields)) s =
            ([logE conn "Received message without a type"], s) := by
          simp only [handleMessage, ht]
        rw [he]
        exact ⟨rfl, rfl, rfl, rfl⟩
      · rw [ht] at h2
        cases j with
        | str t =>
          rw [handleMessage_typed conn catalog strategy fields s t ht]
          by_cases hh : t = "hello"
          · subst hh
            rw [if_pos rfl]
            have h3 : (match getField (JSON.obj fields) "sessionId" with
                       | some (.str _) => false
                       | _ => true) = true := h2
            have hs0 : (match getField (JSON.obj fields) "sessionId" with
                        | some (.str _) => true
                        | _ => false) = false := by
              rcases hs : getField (JSON.obj fields) "sessionId" with _ | j2
              · rfl
              · rw [hs] at h3
                cases j2 <;> first | rfl | simp at h3
            rw [handleHello_no_hello conn _ s hs0]
            exact ⟨rfl, rfl, rfl, rfl⟩
          · rw [if_neg hh]
            by_cases hsub : t = "subscribe"
            · subst hsub
              rw [if_pos rfl]
              have h3 : (match getField (JSON.obj fields) "offset" with
                         | some (.num _) =>
                           match getField (JSON.obj fields) "subscriptionId" with
                           | some (.num sid2) => hasKey (toString sid2) s.subscriptions
                           | _ => true
                         | _ => true) = true := h2
              rcases ho : getField (JSON.obj fields) "offset" with _ | j2
              · have he : handleSubscribe conn catalog strategy (JSON.obj fields) s =
                    ([logE conn "expected offset number"], s) := by
                  simp only [handleSubscribe, ho]
                rw [he]
                exact ⟨rfl, rfl, rfl, rfl⟩
              · have heOff : ∀ j4, getField (JSON.obj fields) "offset" = some j4 →
                    (∀ n4, j4 ≠ JSON.num n4) →
                    handleSubscribe conn catalog strategy (JSON.obj fields) s =
                      ([logE conn "expected offset number"], s) := by
                  intro j4 ho4 hne
                  cases j4 with
                  | num n4 => exact absurd rfl (hne n4)
                  | null => simp only [handleSubscribe, ho4]
                  | bool b4 => simp only [handleSubscribe, ho4]
                  | str s4 => simp only [handleSubscribe, ho4]
                  | arr xs4 => simp only [handleSubscribe, ho4]
                  | obj f4 => simp only [handleSubscribe, ho4]
                cases j2 with
                | num offset =>
                  rw [ho] at h3
                  rcases hi : getField (JSON.obj fields) "subscriptionId" with _ | j3
                  · have he : handleSubscribe conn catalog strategy (JSON.obj fields) s =
                        ([logE conn "expected subscriptionId string"], s) := by
                      simp only [handleSubscribe, ho, hi]
                    rw [he]
                    exact ⟨rfl, rfl, rfl, rfl⟩
                  · have heSid : (∀ n4, j3 ≠ JSON.num n4) →
                        handleSubscribe conn catalog strategy (JSON.obj fields) s =
                          ([logE conn "expected subscriptionId string"], s) := by
                      intro hne
                      cases j3 with
                      | num n4 => exact absurd rfl (hne n4)
                      | null => simp only [handleSubscribe, ho, hi]
                      | bool b4 => simp only [handleSubscribe, ho, hi]
                      | str s4 => simp only [handleSubscribe, ho, hi]
                      | arr xs4 => simp only [handleSubscribe, ho, hi]
                      | obj f4 => simp only [handleSubscribe, ho, hi]
                    cases j3 with
                    | num sid =>
                      rw [hi] at h3
                      have h4 : hasKey (toString sid) s.subscriptions = true := h3
                      rw [handleSubscribe_dup conn catalog strategy _ s offset sid ho hi h4]
                      exact ⟨rfl, rfl, rfl, rfl⟩
                    | null =>
                      rw [heSid (fun n4 => JSON.noConfusion)]
                      exact ⟨rfl, rfl, rfl, rfl⟩
                    | bool b4 =>
                      rw [heSid (fun n4 => JSON.noConfusion)]
                      exact ⟨rfl, rfl, rfl, rfl⟩
                    | str s4 =>
                      rw [heSid (fun n4 => JSON.noConfusion)]
                      exact ⟨rfl, rfl, rfl, rfl⟩
                    | arr xs4 =>
                      rw [heSid (fun n4 => JSON.noConfusion)]
                      exact ⟨rfl, rfl, rfl, rfl⟩
                    | obj f4 =>
                      rw [heSid (fun n4 => JSON.noConfusion)]
                      exact ⟨rfl, rfl, rfl, rfl⟩
                | null =>
                  rw [heOff _ ho (fun n4 => JSON.noConfusion)]
                  exact ⟨rfl, rfl, rfl, rfl⟩
                | bool b4 =>
                  rw [heOff _ ho (fun n4 => JSON.noConfusion)]
                  exact ⟨rfl, rfl, rfl, rfl⟩
                | str s4 =>
                  rw [heOff _ ho (fun n4 => JSON.noConfusion)]
                  exact ⟨rfl, rfl, rfl, rfl⟩
                | arr xs4 =>
                  rw [heOff _ ho (fun n4 => JSON.noConfusion)]
                  exact ⟨rfl, rfl, rfl, rfl⟩
                | obj f4 =>
                  rw [heOff _ ho (fun n4 => JSON.noConfusion)]
                  exact ⟨rfl, rfl, rfl, rfl⟩
            · rw [if_neg hsub]
              by_cases hun : t = "unsubscribe"
              · subst hun
                rw [if_pos rfl]
                have h3 : (match lookupSub (jsToStringU (getField (JSON.obj fields) "subscriptionId"))
                              s.subscriptions with
                           | none => true
                           | some _ =>
                             match getField (JSON.obj fields) "subscriptionId" with
                             | some (.num _) => false
                             | _ => true) = true := h2
                rcases hi : getField (JSON.obj fields) "subscriptionId" with _ | j3
                · rw [hi] at h3
                  rcases hl : lookupSub (jsToStringU none) s.subscriptions with _ | sub
                  · have he : handleUnsubscribe conn (JSON.obj fields) s =
                        ([logE conn ("subscriptionId not found: " ++ jsToStringU none)], s) := by
                      unfold handleUnsubscribe
                      rw [hi, hl]
                    rw [he]
                    exact ⟨rfl, rfl, rfl, rfl⟩
                  · rw [hl] at h3
                    have he : handleUnsubscribe conn (JSON.obj fields) s =
                        ([logE conn "expected subscriptionId number"], s) := by
                      unfold handleUnsubscribe
                      rw [hi, hl]
                    rw [he]
                    exact ⟨rfl, rfl, rfl, rfl⟩
                · rw [hi] at h3
                  rcases hl : lookupSub (jsToStringU (some j3)) s.subscriptions with _ | sub
                  · have he : handleUnsubscribe conn (JSON.obj fields) s =
                        ([logE conn ("subscriptionId not found: " ++ jsToStringU (some j3))], s) := by
                      unfold handleUnsubscribe
                      rw [hi, hl]
                    rw [he]
                    exact ⟨rfl, rfl, rfl, rfl⟩
                  · rw [hl] at h3
                    cases j3 with
                    | num n3 => simp at h3
                    | null =>
                      have he : handleUnsubscribe conn (JSON.obj fields) s =
                          ([logE conn "expected subscriptionId number"], s) := by
                        unfold handleUnsubscribe
                        rw [hi, hl]
                      rw [he]
                      exact ⟨rfl, rfl, rfl, rfl⟩
                    | bool b3 =>
                      have he : handleUnsubscribe conn (JSON.obj fields) s =
                          ([logE conn "expected subscriptionId number"], s) := by
                        unfold handleUnsubscribe
                        rw [hi, hl]
                      rw [he]
                      exact ⟨rfl, rfl, rfl, rfl⟩
                    | str s3 =>
                      have he : handleUnsubscribe conn (JSON.obj fields) s =
                          ([logE conn "expected subscriptionId number"], s) := by
                        unfold handleUnsubscribe
                        rw [hi, hl]
                      rw [he]
                      exact ⟨rfl, rfl, rfl, rfl⟩
                    | arr xs3 =>
                      have he : handleUnsubscribe conn (JSON.obj fields) s =
                          ([logE conn "expected subscriptionId number"], s) := by
                        unfold handleUnsubscribe
                        rw [hi, hl]
                      rw [he]
                      exact ⟨rfl, rfl, rfl, rfl⟩
                    | obj f3 =>
                      have he : handleUnsubscribe conn (JSON.obj fields) s =
                          ([logE conn "expected subscriptionId number"], s) := by
                        unfold handleUnsubscribe
                        rw [hi, hl]
                      rw [he]
                      exact ⟨rfl, rfl, rfl, rfl⟩
              · rw [if_neg hun]
                exact ⟨rfl, rfl, rfl, rfl⟩
        | null =>
          have he : handleMessage conn catalog strategy (some (.obj fields)) s =
              ([logE conn "Received message without a type"], s) := by
            simp only [handleMessage, ht]
          rw [he]
          exact ⟨rfl, rfl, rfl, rfl⟩
        | bool b =>
          have he : handleMessage conn catalog strategy (some (.obj fields)) s =
              ([logE conn "Received message without a type"], s) := by
            simp only [handleMessage, ht]
          rw [he]
          exact ⟨rfl, rfl, rfl, rfl⟩
        | num n =>
          have he : handleMessage conn catalog strategy (some (.obj fields)) s =
              ([logE conn "Received message without a type"], s) := by
            simp only [handleMessage, ht]
          rw [he]
          exact ⟨rfl, rfl, rfl, rfl⟩
        | arr xs =>
          have he : handleMessage conn catalog strategy (some (.obj fields)) s =
              ([logE conn "Received message without a type"], s) := by
            simp only [handleMessage, ht]
          rw [he]
          exact ⟨rfl, rfl, rfl, rfl⟩
        | obj f2 =>
          have he : handleMessage conn catalog strategy (some (.obj fields)) s =
              ([logE conn "Received message without a type"], s) := by
            simp only [handleMessage, ht]
          rw [he]
          exact ⟨rfl, rfl, rfl, rfl⟩

/-- Claim C1 amended witness: the theorem applied to an unsubscribe for a
subscriptionId that is not in the (empty) table. -/
theorem claim1_witness :
    (handleMessage conn0 catEmpty []
        (some (.obj [("type", .str "unsubscribe"), ("subscriptionId", .num 9)]))
        initState).1.any Effect.isLog = true ∧
    (handleMessage conn0 catEmpty []
        (some (.obj [("type", .str "unsubscribe"), ("subscriptionId", .num 9)]))
        initState).1.all (fun e => !e.isClose) = true ∧
    sentEnvelopes (handleMessage conn0 catEmpty []
        (some (.obj [("type", .str "unsubscribe"), ("subscriptionId", .num 9)]))
        initState).1 = [] ∧
    (handleMessage conn0 catEmpty []
        (some (.obj [("type", .str "unsubscribe"), ("subscriptionId", .num 9)]))
        initState).2.subscriptions = initState.subscriptions :=
  claim1_protocol_error_silent conn0 catEmpty []
    (some (.obj [("type", .str "unsubscribe"), ("subscriptionId", .num 9)]))
    initState rfl

/-- Claim C2: handling one inbound frame never raises to the transport layer.
In this embedding the handler is a total function of the frame, the state,
the catalog (which, per its collaborator contract, yields a factory or
nothing) and the factory result of arbitrary shape, so every message is
processed to a result; no translated code path throws.  The theorem states
the two observable halves: the handler never closes the transport, and the
worst-case state change of any single message is bounded: the table is either
unchanged (dropped message), extended by one fresh entry (accepted
subscribe), or has exactly one entry deleted (unsubscribe, a terminated
individual subscription). -/
theorem claim2_no_throw_bounded (conn : Conn) (catalog : Catalog) (strategy : List Nat)
    (data : Option JSON) (s : ConnState) :
    (handleMessage conn catalog strategy data s).1.all (fun e => !e.isClose) = true ∧
    ((handleMessage conn catalog strategy data s).2.subscriptions = s.subscriptions ∨
     (∃ key sub, lookupSub key s.subscriptions = none ∧
        (handleMessage conn catalog strategy data s).2.subscriptions =
          setKey key sub s.subscriptions) ∨
     (∃ key, (handleMessage conn catalog strategy data s).2.subscriptions =
          delKey key s.subscriptions)) := by
  cases data with
  | none => exact ⟨rfl, Or.inl rfl⟩
  | some m =>
    cases m with
    | null => exact ⟨rfl, Or.inl rfl⟩
    | bool b => exact ⟨rfl, Or.inl rfl⟩
    | num n => exact ⟨rfl, Or.inl rfl⟩
    | str s2 => exact ⟨rfl, Or.inl rfl⟩
    | arr xs => exact ⟨rfl, Or.inl rfl⟩
    | obj fields =>
      rcases ht : getField (.obj fields) "type" with _ | j
      · have he : handleMessage conn catalog strategy (some (.obj fields)) s =
            ([logE conn "Received message without a type"], s) := by
          simp only [handleMessage, ht]
        rw [he]
        exact ⟨rfl, Or.inl rfl⟩
      · cases j with
        | str t =>
          rw [handleMessage_typed conn catalog strategy fields s t ht]
          by_cases hh : t = "hello"
          · subst hh
            rw [if_pos rfl]
            rcases hs : getField (JSON.obj fields) "sessionId" with _ | j2
            · have he : handleHello conn (JSON.obj fields) s =
                  ([logE conn "expected sessionId"], s) := by
                simp only [handleHello, hs]
              rw [he]
              exact ⟨rfl, Or.inl rfl⟩
            · cases j2 with
              | str sid =>
                have he : handleHello conn (JSON.obj fields) s =
                    ([.emitEvent "connection-open" (mkMeta conn (some sid)),
                      logE conn ("open session " ++ sid)],
                     { s with sessionId := some sid }) := by
                  simp only [handleHello, hs]
                rw [he]
                exact ⟨rfl, Or.inl rfl⟩
              | null =>
                have he : handleHello conn (JSON.obj fields) s =
                    ([logE conn "expected sessionId"], s) := by
                  simp only [handleHello, hs]
                rw [he]
                exact ⟨rfl, Or.inl rfl⟩
              | bool b2 =>
                have he : handleHello conn (JSON.obj fields) s =
                    ([logE conn "expected sessionId"], s) := by
                  simp only [handleHello, hs]
                rw [he]
                exact ⟨rfl, Or.inl rfl⟩
              | num n2 =>
                have he : handleHello conn (JSON.obj fields) s =
                    ([logE conn "expected sessionId"], s) := by
                  simp only [handleHello, hs]
                rw [he]
                exact ⟨rfl, Or.inl rfl⟩
              | arr xs2 =>
                have he : handleHello conn (JSON.obj fields) s =
                    ([logE conn "expected sessionId"], s) := by
                  simp only [handleHello, hs]
                rw [he]
                exact ⟨rfl, Or.inl rfl⟩
              | obj f2 =>
                have he : handleHello conn (JSON.obj fields) s =
                    ([logE conn "expected sessionId"], s) := by
                  simp only [handleHello, hs]
                rw [he]
                exact ⟨rfl, Or.inl rfl⟩
          · rw [if_neg hh]
            by_cases hsub : t = "subscribe"
            · subst hsub
              rw [if_pos rfl]
              rcases ho : getField (JSON.obj fields) "offset" with _ | j2
              · have he : handleSubscribe conn catalog strategy (JSON.obj fields) s =
                    ([logE conn "expected offset number"], s) := by
                  simp only [handleSubscribe, ho]
                rw [he]
                exact ⟨rfl, Or.inl rfl⟩
              · have heOff : (∀ n4, j2 ≠ JSON.num n4) →
                    handleSubscribe conn catalog strategy (JSON.obj fields) s =
                      ([logE conn "expected offset number"], s) := by
                  intro hne
                  cases j2 with
                  | num n4 => exact absurd rfl (hne n4)
                  | null => simp only [handleSubscribe, ho]
                  | bool b4 => simp only [handleSubscribe, ho]
                  | str s4 => simp only [handleSubscribe, ho]
                  | arr xs4 => simp only [handleSubscribe, ho]
                  | obj f4 => simp only [handleSubscribe, ho]
                cases j2 with
                | num offset =>
                  rcases hi : getField (JSON.obj fields) "subscriptionId" with _ | j3
                  · have he : handleSubscribe conn catalog strategy (JSON.obj fields) s =
                        ([logE conn "expected subscriptionId string"], s) := by
                      simp only [handleSubscribe, ho, hi]
                    rw [he]
                    exact ⟨rfl, Or.inl rfl⟩
                  · have heSid : (∀ n4, j3 ≠ JSON.num n4) →
                        handleSubscribe conn catalog strategy (JSON.obj fields) s =
                          ([logE conn "expected subscriptionId string"], s) := by
                      intro hne
                      cases j3 with
                      | num n4 => exact absurd rfl (hne n4)
                      | null => simp only [handleSubscribe, ho, hi]
                      | bool b4 => simp only [handleSubscribe, ho, hi]
                      | str s4 => simp only [handleSubscribe, ho, hi]
                      | arr xs4 => simp only [handleSubscribe, ho, hi]
                      | obj f4 => simp only [handleSubscribe, ho, hi]
                    cases j3 with
                    | num sid =>
                      by_cases hd : hasKey (toString sid) s.subscriptions = true
                      · rw [handleSubscribe_dup conn catalog strategy _ s offset sid ho hi hd]
                        exact ⟨rfl, Or.inl rfl⟩
                      · have hd2 : hasKey (toString sid) s.subscriptions = false := by
                          cases hv : hasKey (toString sid) s.subscriptions
                          · rfl
                          · exact absurd hv hd
                        rcases hc : catalog (jsToStringU (getField (JSON.obj fields) "name"))
                            with _ | factory
                        · rw [handleSubscribe_notFound conn catalog strategy _ s offset sid
                              ho hi hd2 hc]
                          refine ⟨?_, Or.inl rfl⟩
                          simp only [List.all_cons, List.all_nil]
                          rw [send_not_close conn _]
                          simp [logE, Effect.isClose]
                        · rcases hf : factory offset s.sessionId with shown | ⟨arrayField, items, terminal⟩
                          · rw [handleSubscribe_wrongShape conn catalog strategy _ s offset sid
                                factory shown ho hi hd2 hc hf]
                            refine ⟨?_, Or.inl rfl⟩
                            simp only [List.all_cons, List.all_nil]
                            rw [send_not_close conn _]
                            simp [logE, Effect.isClose]
                          · cases arrayField with
                            | some a =>
                              rw [handleSubscribe_storeArray conn catalog strategy _ s offset sid
                                  factory a items terminal ho hi hd2 hc hf]
                              refine ⟨rfl, Or.inr (Or.inl ⟨toString sid,
                                ⟨sid, getField (JSON.obj fields) "name", [a], some .complete⟩,
                                hasKey_false_lookup _ _ hd2, rfl⟩)⟩
                            | none =>
                              rw [handleSubscribe_storeChunks conn catalog strategy _ s offset sid
                                  factory items terminal ho hi hd2 hc hf]
                              refine ⟨rfl, Or.inr (Or.inl ⟨toString sid,
                                ⟨sid, getField (JSON.obj fields) "name", chunkBy strategy items,
                                 some terminal⟩,
                                hasKey_false_lookup _ _ hd2, rfl⟩)⟩
                    | null =>
                      rw [heSid (fun n4 => JSON.noConfusion)]
                      exact ⟨rfl, Or.inl rfl⟩
                    | bool b4 =>
                      rw [heSid (fun n4 => JSON.noConfusion)]
                      exact ⟨rfl, Or.inl rfl⟩
                    | str s4 =>
                      rw [heSid (fun n4 => JSON.noConfusion)]
                      exact ⟨rfl, Or.inl rfl⟩
                    | arr xs4 =>
                      rw [heSid (fun n4 => JSON.noConfusion)]
                      exact ⟨rfl, Or.inl rfl⟩
                    | obj f4 =>
                      rw [heSid (fun n4 => JSON.noConfusion)]
                      exact ⟨rfl, Or.inl rfl⟩
                | null =>
                  rw [heOff (fun n4 => JSON.noConfusion)]
                  exact ⟨rfl, Or.inl rfl⟩
                | bool b4 =>
                  rw [heOff (fun n4 => JSON.noConfusion)]
                  exact ⟨rfl, Or.inl rfl⟩
                | str s4 =>
                  rw [heOff (fun n4 => JSON.noConfusion)]
                  exact ⟨rfl, Or.inl rfl⟩
                | arr xs4 =>
                  rw [heOff (fun n4 => JSON.noConfusion)]
                  exact ⟨rfl, Or.inl rfl⟩
                | obj f4 =>
                  rw [heOff (fun n4 => JSON.noConfusion)]
                  exact ⟨rfl, Or.inl rfl⟩
            · rw [if_neg hsub]
              by_cases hun : t = "unsubscribe"
              · subst hun
                rw [if_pos rfl]
                rcases hi : getField (JSON.obj fields) "subscriptionId" with _ | j3
                · rcases hl : lookupSub (jsToStringU none) s.subscriptions with _ | sub
                  · have he : handleUnsubscribe conn (JSON.obj fields) s =
                        ([logE conn ("subscriptionId not found: " ++ jsToStringU none)], s) := by
                      unfold handleUnsubscribe
                      rw [hi, hl]
                    rw [he]
                    exact ⟨rfl, Or.inl rfl⟩
                  · have he : handleUnsubscribe conn (JSON.obj fields) s =
                        ([logE conn "expected subscriptionId number"], s) := by
                      unfold handleUnsubscribe
                      rw [hi, hl]
                    rw [he]
                    exact ⟨rfl, Or.inl rfl⟩
                · rcases hl : lookupSub (jsToStringU (some j3)) s.subscriptions with _ | sub
                  · have he : handleUnsubscribe conn (JSON.obj fields) s =
                        ([logE conn ("subscriptionId not found: " ++ jsToStringU (some j3))], s) := by
                      unfold handleUnsubscribe
                      rw [hi, hl]
                    rw [he]
                    exact ⟨rfl, Or.inl rfl⟩
                  · cases j3 with
                    | num n3 =>
                      have he : handleUnsubscribe conn (JSON.obj fields) s =
                          ([logE conn ("unsubscribing from " ++ jsToStringU sub.name),
                            .cancel (jsToStringU (some (.num n3)))],
                           { s with subscriptions :=
                              (delKey (jsToStringU (some (.num n3))) s.subscriptions) }) := by
                        unfold handleUnsubscribe
                        rw [hi, hl]
                      rw [he]
                      exact ⟨rfl, Or.inr (Or.inr ⟨jsToStringU (some (.num n3)), rfl⟩)⟩
                    | null =>
                      have he : handleUnsubscribe conn (JSON.obj fields) s =
                          ([logE conn "expected subscriptionId number"], s) := by
                        unfold handleUnsubscribe
                        rw [hi, hl]
                      rw [he]
                      exact ⟨rfl, Or.inl rfl⟩
                    | bool b3 =>
                      have he : handleUnsubscribe conn (JSON.obj fields) s =
                          ([logE conn "expected subscriptionId number"], s) := by
                        unfold handleUnsubscribe
                        rw [hi, hl]
                      rw [he]
                      exact ⟨rfl, Or.inl rfl⟩
                    | str s3 =>
                      have he : handleUnsubscribe conn (JSON.obj fields) s =
                          ([logE conn "expected subscriptionId number"], s) := by
                        unfold handleUnsubscribe
                        rw [hi, hl]
                      rw [he]
                      exact ⟨rfl, Or.inl rfl⟩
                    | arr xs3 =>
                      have he : handleUnsubscribe conn (JSON.obj fields) s =
                          ([logE conn "expected subscriptionId number"], s) := by
                        unfold handleUnsubscribe
                        rw [hi, hl]
                      rw [he]
                      exact ⟨rfl, Or.inl rfl⟩
                    | obj f3 =>
                      have he : handleUnsubscribe conn (JSON.obj fields) s =
                          ([logE conn "expected subscriptionId number"], s) := by
                        unfold handleUnsubscribe
                        rw [hi, hl]
                      rw [he]
                      exact ⟨rfl, Or.inl rfl⟩
              · rw [if_neg hun]
                exact ⟨rfl, Or.inl rfl⟩
        | null =>
          have he : handleMessage conn catalog strategy (some (.obj fields)) s =
              ([logE conn "Received message without a type"], s) := by
            simp only [handleMessage, ht]
          rw [he]
          exact ⟨rfl, Or.inl rfl⟩
        | bool b =>
          have he : handleMessage conn catalog strategy (some (.obj fields)) s =
              ([logE conn "Received message without a type"], s) := by
            simp only [handleMessage, ht]
          rw [he]
          exact ⟨rfl, Or.inl rfl⟩
        | num n =>
          have he : handleMessage conn catalog strategy (some (.obj fields)) s =
              ([logE conn "Received message without a type"], s) := by
            simp only [handleMessage, ht]
          rw [he]
          exact ⟨rfl, Or.inl rfl⟩
        | arr xs =>
          have he : handleMessage conn catalog strategy (some (.obj fields)) s =
              ([logE conn "Received message without a type"], s) := by
            simp only [handleMessage, ht]
          rw [he]
          exact ⟨rfl, Or.inl rfl⟩
        | obj f2 =>
          have he : handleMessage conn catalog strategy (some (.obj fields)) s =
              ([logE conn "Received message without a type"], s) := by
            simp only [handleMessage, ht]
          rw [he]
          exact ⟨rfl, Or.inl rfl⟩

/-- Claim C10: before any valid hello has been processed, the session id is
null and stays null under any run of non-hello messages, delivery ticks and
closes; every domain event ingested in such a run carries meta.sessionId null
while meta.connectionId and meta.ipAddress are the fixed connection values;
every factory invocation in such a run receives a null session id; and a
valid subscribe is accepted without any hello: from any state with a null
session id, a subscribe for a known name with a fresh id invokes the catalog
factory, passing null as the session id. -/
theorem claim10_pre_hello_null_session (conn : Conn) (catalog : Catalog) (strategy : List Nat)
    (steps : List Step)
    (h : ∀ d, Step.msg d ∈ steps → validHelloMsg d = false) :
    (runSteps conn catalog strategy steps initState).2.sessionId = none ∧
    (∀ p ∈ domainEvents (runSteps conn catalog strategy steps initState).1,
       p.2 = { connectionId := conn.connectionId, sessionId := none,
               ipAddress := conn.remoteAddr }) ∧
    (∀ x ∈ factoryCalls (runSteps conn catalog strategy steps initState).1,
       x.2.2 = none) ∧
    (∀ (s : ConnState) (i : Int) (nm : String) (o : Int) (factory : Factory),
       s.sessionId = none → lookupSub (toString i) s.subscriptions = none →
       catalog nm = some factory →
       Effect.factoryCall nm o none ∈
         (handleMessage conn catalog strategy (some (mkSubscribe i nm o)) s).1) := by
  have main := runSteps_no_hello conn catalog strategy steps initState rfl h
  refine ⟨main.1, ?_, main.2.2, ?_⟩
  · intro p hp
    rw [main.2.1 p hp]
    rfl
  · intro s i nm o factory hsess hfree hcat
    have hd2 : hasKey (toString i) s.subscriptions = false := by
      unfold hasKey
      rw [hfree]
      rfl
    have ht : getField (JSON.obj [("type", JSON.str "subscribe"),
        ("subscriptionId", JSON.num i), ("name", JSON.str nm),
        ("offset", JSON.num o)]) "type" = some (JSON.str "subscribe") := rfl
    have ho : getField (JSON.obj [("type", JSON.str "subscribe"),
        ("subscriptionId", JSON.num i), ("name", JSON.str nm),
        ("offset", JSON.num o)]) "offset" = some (JSON.num o) := rfl
    have hi : getField (JSON.obj [("type", JSON.str "subscribe"),
        ("subscriptionId", JSON.num i), ("name", JSON.str nm),
        ("offset", JSON.num o)]) "subscriptionId" = some (JSON.num i) := rfl
    have hname : jsToStringU (getField (JSON.obj [("type", JSON.str "subscribe"),
        ("subscriptionId", JSON.num i), ("name", JSON.str nm),
        ("offset", JSON.num o)]) "name") = nm := rfl
    have hc2 : catalog (jsToStringU (getField (JSON.obj [("type", JSON.str "subscribe"),
        ("subscriptionId", JSON.num i), ("name", JSON.str nm),
        ("offset", JSON.num o)]) "name")) = some factory := by
      rw [hname]
      exact hcat
    show Effect.factoryCall nm o none ∈
      (handleMessage conn catalog strategy
        (some (JSON.obj [("type", JSON.str "subscribe"), ("subscriptionId", JSON.num i),
          ("name", JSON.str nm), ("offset", JSON.num o)])) s).1
    rw [handleMessage_typed conn catalog strategy _ s "subscribe" ht,
        if_neg (by decide), if_pos rfl]
    rcases hf : factory o s.sessionId with shown | ⟨arrayField, items, terminal⟩
    · rw [handleSubscribe_wrongShape conn catalog strategy _ s o i factory shown ho hi hd2 hc2 hf]
      rw [hname, hsess]
      exact List.mem_cons_of_mem _ (List.mem_cons_self _ _)
    · cases arrayField with
      | some a =>
        rw [handleSubscribe_storeArray conn catalog strategy _ s o i factory a items terminal
            ho hi hd2 hc2 hf]
        rw [hname, hsess]
        exact List.mem_cons_of_mem _ (List.mem_cons_self _ _)
      | none =>
        rw [handleSubscribe_storeChunks conn catalog strategy _ s o i factory items terminal
            ho hi hd2 hc2 hf]
        rw [hname, hsess]
        exact List.mem_cons_of_mem _ (List.mem_cons_self _ _)

/-- Claim C10 witness: a run with one non-hello message (a subscribe to feed)
followed by the connection close, against the concrete catalog. -/
theorem claim10_witness :
    (runSteps conn0 catFeed [] [Step.msg (some (mkSubscribe 1 "feed" 0)), Step.close]
        initState).2.sessionId = none ∧
    (∀ p ∈ domainEvents (runSteps conn0 catFeed []
        [Step.msg (some (mkSubscribe 1 "feed" 0)), Step.close] initState).1,
       p.2 = { connectionId := "conn-1", sessionId := none, ipAddress := "127.0.0.1" }) ∧
    (∀ x ∈ factoryCalls (runSteps conn0 catFeed []
        [Step.msg (some (mkSubscribe 1 "feed" 0)), Step.close] initState).1,
       x.2.2 = none) ∧
    (∀ (s : ConnState) (i : Int) (nm : String) (o : Int) (factory : Factory),
       s.sessionId = none → lookupSub (toString i) s.subscriptions = none →
       catFeed nm = some factory →
       Effect.factoryCall nm o none ∈
         (handleMessage conn0 catFeed [] (some (mkSubscribe i nm o)) s).1) :=
  claim10_pre_hello_null_session conn0 catFeed []
    [Step.msg (some (mkSubscribe 1 "feed" 0)), Step.close]
    (by
      intro d hd
      simp only [List.mem_cons, List.not_mem_nil, or_false] at hd
      rcases hd with h1 | h1
      · injection h1 with h2
        rw [h2]
        rfl
      · exact Step.noConfusion h1)

end RxRemote
